import Mathlib

/-!
# storaged-project/api-examples: demo-1-libblockdev and demo-1-progress

A shallow embedding of the two C programs of the repository:

* `demo-1-progress.c`: the progress callback `prog_report` with its static
  `gint8 last_perc`, the function `fsck_blockdev` and the program's `main`;
* `demo-1-libblockdev.c`: the pipelines `create_storage` and `cleanup_storage`
  that drive libblockdev.

libblockdev itself is an external library.  Its functions are embedded as a
`Backend` record: every call takes the backend state and returns a reply and a
new state, so that every statement proved for all backends holds whatever the
library does.
-/

namespace Demo1

/-! ## demo-1-progress.c : the progress callback -/

/-- Conversion of an integer to `gint8` (signed char, 8 bits, two's complement):
the value is reduced modulo `2^8` into `-128 .. 127`. -/
def to_gint8 (v : Int) : Int := (v + 128) % 256 - 128

/-- One `printf` of `prog_report`: `percent c` is `printf("Progress: %d%%\n", c)`
and `message m` is `printf("\n%s\n", m)`. -/
inductive Line where
  | percent (completion : Nat)
  | message (msg : String)
  deriving DecidableEq, Repr

/-- The text a `Line` puts on standard output. -/
def Line.render : Line → String
  | .percent c => "Progress: " ++ toString c ++ "%\n"
  | .message m => "\n" ++ m ++ "\n"

/-- The callback `prog_report (task_id, status, completion, msg)`.
`last_perc` is the value of the function's static `gint8` before the call;
`completion` is a `guint8`, so the argument is reduced modulo `2^8`; `msg` is
`none` for a NULL pointer.  `task_id` and `status` are not read by the body.
Result: the new value of `last_perc` and the lines printed, in order. -/
def prog_report (last_perc : Int) (completion : Nat) (msg : Option String) :
    Int × List Line :=
  let completion := completion % 256
  -- if (msg == NULL && completion != last_perc) { printf; fflush; last_perc = completion; }
  let r : Int × List Line :=
    if msg = none ∧ (completion : Int) ≠ last_perc then
      (to_gint8 completion, [Line.percent completion])
    else (last_perc, [])
  -- if (msg != NULL) printf("\n%s\n", msg);
  match msg with
  | some m => (r.1, r.2 ++ [Line.message m])
  | none => r

/-- The initial value of the static: `static gint8 last_perc = -1;`. -/
def last_perc_init : Int := -1

/-- A progress event as delivered to the callback: completion and message. -/
abbrev ProgEvent := Nat × Option String

/-- The callback invoked on a stream of events, starting from `last_perc`:
the final `last_perc` and, per event, the lines that event printed. -/
def prog_run : Int → List ProgEvent → Int × List (List Line)
  | last, [] => (last, [])
  | last, (c, m) :: evs =>
    let r := prog_report last c m
    let rest := prog_run r.1 evs
    (rest.1, r.2 :: rest.2)

/-- The reporter as the specification words it: `last_percent` is the
percentage of the most recent no-message event that printed (`none` before any
printed); a message event prints its message only and leaves the state; a
no-message event prints its percentage iff it differs from `last_percent`. -/
def spec_reporter : Option Nat → List ProgEvent → Option Nat × List (List Line)
  | last, [] => (last, [])
  | last, (_, some m) :: evs =>
    let rest := spec_reporter last evs
    (rest.1, [Line.message m] :: rest.2)
  | last, (c, none) :: evs =>
    if last = some c then
      let rest := spec_reporter last evs
      (rest.1, [] :: rest.2)
    else
      let rest := spec_reporter (some c) evs
      (rest.1, [Line.percent c] :: rest.2)

/-- The `gint8` that stands for a specification state. -/
def spec_state : Option Nat → Int
  | none => -1
  | some c => c

/-! ## demo-1-libblockdev.c : data passed to and from libblockdev -/

/-- A GLib `GError`: error domain (a `GQuark`), error code and message. -/
structure GError where
  domain : Nat
  code : Int
  message : String
  deriving DecidableEq, Repr

/-- The one field of `BDLVMVGdata` the program reads: `guint64 free`. -/
structure BDLVMVGdata where
  free : Nat
  deriving DecidableEq, Repr

/-- A `BDExtraArg`: option and value. -/
abbrev BDExtraArg := String × String

deriving instance DecidableEq for Except

/-- The libblockdev functions returning `gboolean` that the program calls, each
with the arguments of the C call; a NULL pointer argument is `none`. -/
inductive Call where
  | bd_fs_wipe (device : String) (all : Bool)
  | bd_lvm_pvcreate (device : String) (data_alignment metadata_size : Nat)
      (extra : Option (List BDExtraArg))
  | bd_lvm_vgcreate (name : String) (pv_list : List String) (pe_size : Nat)
      (extra : Option (List BDExtraArg))
  | bd_lvm_lvcreate (vg_name lv_name : String) (size : Nat) (type : String)
      (pv_list : Option (List String)) (extra : Option (List BDExtraArg))
  | bd_swap_mkswap (device label : String) (extra : Option (List BDExtraArg))
  | bd_crypto_luks_format (device : String) (cipher : Option String) (key_size : Nat)
      (passphrase : String) (key_file : Option String) (min_entropy : Nat)
  | bd_crypto_luks_open (device name passphrase : String) (key_file : Option String)
      (read_only : Bool)
  | bd_fs_xfs_mkfs (device : String) (extra : Option (List BDExtraArg))
  | bd_crypto_luks_close (luks_device : String)
  | bd_lvm_lvremove (vg_name lv_name : String) (force : Bool)
      (extra : Option (List BDExtraArg))
  | bd_lvm_vgremove (name : String) (extra : Option (List BDExtraArg))
  | bd_lvm_pvremove (device : String) (extra : Option (List BDExtraArg))
  deriving DecidableEq, Repr

/-- A backend operation as invoked: one of the `gboolean` calls, or
`bd_lvm_vginfo (vg_name, error)`, which returns a `BDLVMVGdata` pointer. -/
inductive Invocation where
  | call (c : Call)
  | vginfo (vg_name : String)
  deriving DecidableEq, Repr

/-- A backend operation together with what it returned: for a `gboolean` call
the error it set (`none` when it returned TRUE), for `bd_lvm_vginfo` the data or
the error (NULL returned). -/
inductive Event where
  | call (c : Call) (error : Option GError)
  | vginfo (vg_name : String) (data : Except GError BDLVMVGdata)
  deriving DecidableEq

/-- The operation of an event, without its reply. -/
def Event.inv : Event → Invocation
  | .call c _ => .call c
  | .vginfo n _ => .vginfo n

/-- The libblockdev library as the program sees it, over a backend state `σ`.
`BD_FS_ERROR` (the error quark of the fs plugin) and `BD_FS_ERROR_NOFS` are
declared in `blockdev/fs.h`, which is not part of the repository: they are
parameters.  A failing `gboolean` call sets an error (GLib convention). -/
structure Backend (σ : Type) where
  BD_FS_ERROR : Nat
  BD_FS_ERROR_NOFS : Int
  run : Call → σ → Option GError × σ
  bd_lvm_vginfo : String → σ → Except GError BDLVMVGdata × σ

/-- GLib `g_error_matches (error, domain, code)`. -/
def g_error_matches (error : Option GError) (domain : Nat) (code : Int) : Bool :=
  match error with
  | none => false
  | some e => e.domain == domain && e.code == code

/-- GLib `g_prefix_error (error, prefix)` on a set error. -/
def g_prefix_error (e : GError) (pre : String) : GError :=
  { e with message := pre ++ e.message }

/-- An event after which the pipelines return FALSE: a failed call, except a
`bd_fs_wipe` that failed with `BD_FS_ERROR_NOFS` of the domain `BD_FS_ERROR`. -/
def Event.aborts {σ : Type} (B : Backend σ) : Event → Bool
  | .call (.bd_fs_wipe _ _) (some e) =>
      !g_error_matches (some e) B.BD_FS_ERROR B.BD_FS_ERROR_NOFS
  | .call _ (some _) => true
  | .call _ none => false
  | .vginfo _ (.error _) => true
  | .vginfo _ (.ok _) => false

/-! ### The constants and macros of demo-1-libblockdev.c -/

def VGNAME : String := "demo_1_libblockdev"
def SWAPNAME : String := "swap"
def SWAPLABEL : String := "demoswap"
def DATANAME : String := "data"
def DATALABEL : String := "demodata"
def LUKSNAME : String := "test-luks"
def PASSPHRASE : String := "passphrase"

/-- The macro `#define MIB * 1024 * 1024`, applied to the number before it. -/
def MIB (n : Nat) : Nat := n * 1024 * 1024
/-- The macro `#define GIB * 1024 MIB`, applied to the number before it. -/
def GIB (n : Nat) : Nat := MIB (n * 1024)

/-- GLib `MIN(a, b)`, that is `(((a) < (b)) ? (a) : (b))`. -/
def MIN (a b : Nat) : Nat := if a < b then a else b

/-! ### Runs of a pipeline -/

/-- The outcome of running a piece of a pipeline: the value, or the `GError`
left in `*error` at a `return FALSE`; the backend state; the backend
operations performed, in order. -/
structure Run (σ α : Type) where
  result : Except GError α
  state : σ
  trace : List Event

/-- The `gboolean` a finished pipeline returns. -/
def Run.ret {σ : Type} (r : Run σ Unit) : Bool :=
  match r.result with
  | .ok _ => true
  | .error _ => false

/-- The content of `*error` when a pipeline returns (`*error` is NULL on entry). -/
def Run.error {σ : Type} (r : Run σ Unit) : Option GError :=
  match r.result with
  | .ok _ => none
  | .error e => some e

/-- A piece of a pipeline: from a backend state to a `Run`. -/
def Pipe (σ α : Type) : Type := σ → Run σ α

/-- Sequencing: a `return FALSE` in the first piece ends the run. -/
def Pipe.bind {σ α β : Type} (m : Pipe σ α) (f : α → Pipe σ β) : Pipe σ β := fun s =>
  let r := m s
  match r.result with
  | .ok a =>
    let r2 := f a r.state
    ⟨r2.result, r2.state, r.trace ++ r2.trace⟩
  | .error e => ⟨.error e, r.state, r.trace⟩

instance {σ : Type} : Monad (Pipe σ) where
  pure a := fun s => ⟨.ok a, s, []⟩
  bind := Pipe.bind

/-- Leave the pipeline with `return FALSE`, `*error` being `e`. -/
def return_FALSE {σ α : Type} (e : GError) : Pipe σ α := fun s => ⟨.error e, s, []⟩

/-- Call a `gboolean` function of the backend; the value is the error it set
(`none`: it returned TRUE). -/
def call {σ : Type} (B : Backend σ) (c : Call) : Pipe σ (Option GError) := fun s =>
  let r := B.run c s
  ⟨.ok r.1, r.2, [Event.call c r.1]⟩

/-- Call `bd_lvm_vginfo`; the value is the data or the error (NULL returned). -/
def vginfo {σ : Type} (B : Backend σ) (vg_name : String) :
    Pipe σ (Except GError BDLVMVGdata) := fun s =>
  let r := B.bd_lvm_vginfo vg_name s
  ⟨.ok r.1, r.2, [Event.vginfo vg_name r.1]⟩

/-- The pattern `if (!ret) { g_prefix_error (error, pre); return FALSE; }`. -/
def check {σ : Type} (ret : Option GError) (pre : String) : Pipe σ Unit :=
  match ret with
  | some e => return_FALSE (g_prefix_error e pre)
  | none => pure ()

/-- The pattern `if (vg_data == NULL) { g_prefix_error (error, pre); return FALSE; }`. -/
def check_data {σ : Type} (vg_data : Except GError BDLVMVGdata) (pre : String) :
    Pipe σ BDLVMVGdata :=
  match vg_data with
  | .error e => return_FALSE (g_prefix_error e pre)
  | .ok d => pure d

/-- The test `input != 'y' && input != 'Y'` on `input = getchar ()`: the `int`
read is stored in a `gchar` (a `char`, taken as signed 8 bits; with an unsigned
`char` the test gives the same on every value `getchar` returns).  `getchar`
returns EOF (-1) or a byte `0 .. 255`; `'y'` is 121 and `'Y'` is 89. -/
def declined (getchar : Int) : Bool :=
  let input := to_gint8 getchar
  input != 121 && input != 89

/-! ### create_storage -/

/-- The loop `for (disk_p = disks; *disk_p != NULL; disk_p++)` of
`create_storage`: wipe each disk and create the LVM PV format on it. -/
def create_storage_loop {σ : Type} (B : Backend σ) : List String → Pipe σ Unit
  | [] => pure ()
  | disk :: rest => do
    let ret ← call B (.bd_fs_wipe disk true)
    match ret with
    | some e =>
      if g_error_matches (some e) B.BD_FS_ERROR B.BD_FS_ERROR_NOFS then
        pure ()  -- g_clear_error (error)
      else
        return_FALSE (g_prefix_error e ("Error when wiping " ++ disk ++ ": "))
    | none => pure ()
    let ret ← call B (.bd_lvm_pvcreate disk 0 0 none)
    check ret ("Error when creating lvmpv format on " ++ disk ++ ": ")
    create_storage_loop B rest

/-- The size of the swap LV: `MIN(1 GIB, vg_data->free / 10)`. -/
def swap_size (free : Nat) : Nat := MIN (GIB 1) (free / 10)

/-- The part of `create_storage` after the loop over the disks. -/
def create_storage_rest {σ : Type} (B : Backend σ) (disks : List String) : Pipe σ Unit := do
  let ret ← call B (.bd_lvm_vgcreate VGNAME disks (MIB 8) none)
  check ret "Error when creating vg: "
  let vg_data ← vginfo B VGNAME
  let vg_data ← check_data vg_data "Error when getting info for the newly created vg: "
  let ret ← call B (.bd_lvm_lvcreate VGNAME SWAPNAME (swap_size vg_data.free) "linear" none none)
  check ret "Error when creating swap lv: "
  let lv_path := "/dev/" ++ VGNAME ++ "/" ++ SWAPNAME
  let ret ← call B (.bd_swap_mkswap lv_path SWAPLABEL none)
  check ret ("Error when creating swap on " ++ lv_path ++ ": ")
  let vg_data ← vginfo B VGNAME
  let vg_data ← check_data vg_data "Error when getting info for the newly created vg: "
  let ret ← call B (.bd_lvm_lvcreate VGNAME DATANAME vg_data.free "linear" none none)
  check ret "Error when creating data lv: "
  let lv_path := "/dev/" ++ VGNAME ++ "/" ++ DATANAME
  let ret ← call B (.bd_crypto_luks_format lv_path none 0 PASSPHRASE none 0)
  check ret ("Error when creating luks on " ++ lv_path ++ ": ")
  let luks_name := LUKSNAME ++ "-" ++ DATANAME
  let ret ← call B (.bd_crypto_luks_open lv_path luks_name PASSPHRASE none false)
  check ret ("Error when opening luks on " ++ lv_path ++ ": ")
  let extra_args : List BDExtraArg := [("-L", DATALABEL)]
  let luks_path := "/dev/mapper/" ++ luks_name
  let ret ← call B (.bd_fs_xfs_mkfs luks_path (some extra_args))
  check ret ("Error when creating xfs on " ++ luks_path ++ ": ")

/-- The function `create_storage (disks, error)`.  `getchar` is what the call
`getchar ()` returns; `disks` is the NULL-terminated array (`main` passes two
paths).  The prompts written with `g_print` are not part of the model. -/
def create_storage {σ : Type} (B : Backend σ) (getchar : Int) (disks : List String) :
    Pipe σ Unit :=
  if declined getchar then
    pure ()  -- g_print ("Aborted\n"); return TRUE;
  else do
    create_storage_loop B disks
    create_storage_rest B disks

/-! ### cleanup_storage -/

/-- The loop of `cleanup_storage`: remove the LVM PV format from each disk. -/
def cleanup_storage_loop {σ : Type} (B : Backend σ) : List String → Pipe σ Unit
  | [] => pure ()
  | disk :: rest => do
    let ret ← call B (.bd_lvm_pvremove disk none)
    check ret ("Error when removing lvmpv format from " ++ disk ++ ": ")
    cleanup_storage_loop B rest

/-- The function `cleanup_storage (disks, error)`. -/
def cleanup_storage {σ : Type} (B : Backend σ) (getchar : Int) (disks : List String) :
    Pipe σ Unit :=
  if declined getchar then
    pure ()  -- g_print ("Aborted\n"); return TRUE;
  else do
    let path := "/dev/mapper/" ++ LUKSNAME ++ "-" ++ DATANAME
    let ret ← call B (.bd_crypto_luks_close path)
    check ret ("Error when closing luks device " ++ path ++ ": ")
    let ret ← call B (.bd_lvm_lvremove VGNAME DATANAME false none)
    check ret "Error when removing data lv: "
    let ret ← call B (.bd_lvm_lvremove VGNAME SWAPNAME false none)
    check ret "Error when removing swap lv: "
    let ret ← call B (.bd_lvm_vgremove VGNAME none)
    check ret "Error when removing vg: "
    cleanup_storage_loop B disks

/-! ### The fixed call sequences -/

/-- The free-space values returned by the successful volume-group queries of a
trace, in order. -/
def vg_frees : List Event → List Nat
  | [] => []
  | .vginfo _ (.ok d) :: t => d.free :: vg_frees t
  | _ :: t => vg_frees t

/-- The calls `create_storage` makes on the disks: wipe, then pvcreate, per disk. -/
def create_sequence_disks : List String → List Invocation
  | [] => []
  | d :: ds =>
    .call (.bd_fs_wipe d true) :: .call (.bd_lvm_pvcreate d 0 0 none) :: create_sequence_disks ds

/-- The calls `create_storage` makes after the loop over the disks, `f1` and
`f2` being the free space the first and the second volume-group query report. -/
def create_sequence_rest (disks : List String) (f1 f2 : Nat) : List Invocation :=
  [ .call (.bd_lvm_vgcreate "demo_1_libblockdev" disks 8388608 none),
    .vginfo "demo_1_libblockdev",
    .call (.bd_lvm_lvcreate "demo_1_libblockdev" "swap" (min 1073741824 (f1 / 10)) "linear"
      none none),
    .call (.bd_swap_mkswap "/dev/demo_1_libblockdev/swap" "demoswap" none),
    .vginfo "demo_1_libblockdev",
    .call (.bd_lvm_lvcreate "demo_1_libblockdev" "data" f2 "linear" none none),
    .call (.bd_crypto_luks_format "/dev/demo_1_libblockdev/data" none 0 "passphrase" none 0),
    .call (.bd_crypto_luks_open "/dev/demo_1_libblockdev/data" "test-luks-data" "passphrase"
      none false),
    .call (.bd_fs_xfs_mkfs "/dev/mapper/test-luks-data" (some [("-L", "demodata")])) ]

/-- The fixed call sequence of `create_storage`: per disk a wipe and a
pvcreate, then the nine calls of `create_sequence_rest`. -/
def create_sequence (disks : List String) (f1 f2 : Nat) : List Invocation :=
  create_sequence_disks disks ++ create_sequence_rest disks f1 f2

/-- The fixed call sequence of `cleanup_storage`. -/
def cleanup_sequence (disks : List String) : List Invocation :=
  [ .call (.bd_crypto_luks_close "/dev/mapper/test-luks-data"),
    .call (.bd_lvm_lvremove "demo_1_libblockdev" "data" false none),
    .call (.bd_lvm_lvremove "demo_1_libblockdev" "swap" false none),
    .call (.bd_lvm_vgremove "demo_1_libblockdev" none) ] ++
  disks.map (fun d => .call (.bd_lvm_pvremove d none))

/-- A run that stops at its first failing step: either it returned TRUE, made
exactly the calls of `script` and none aborted; or it returned FALSE, its calls
are a prefix of `script`, the last one aborted and none before it did. -/
def StopsAtFirstFailure {σ : Type} (B : Backend σ) (ret : Bool) (trace : List Event)
    (script : List Invocation) : Prop :=
  (ret = true ∧ trace.map Event.inv = script ∧ ∀ ev ∈ trace, ev.aborts B = false) ∨
  (ret = false ∧ ∃ pre ev, trace = pre ++ [ev] ∧ (∀ x ∈ pre, x.aborts B = false) ∧
    ev.aborts B = true ∧ trace.map Event.inv <+: script)

/-- An event put in front of the trace of a run. -/
def Run.cons {σ α : Type} (ev : Event) (r : Run σ α) : Run σ α :=
  ⟨r.result, r.state, ev :: r.trace⟩

/-- The event of an operation that failed with the error `e`. -/
def Event.failed : Invocation → GError → Event
  | .call c, e => .call c (some e)
  | .vginfo n, e => .vginfo n (.error e)

/-- The nine events of `create_storage` after the loop when every call succeeds,
the volume-group queries returning `d1` and `d2`. -/
def create_rest_events (disks : List String) (d1 d2 : BDLVMVGdata) : List Event :=
  [ .call (.bd_lvm_vgcreate VGNAME disks (MIB 8) none) none,
    .vginfo VGNAME (.ok d1),
    .call (.bd_lvm_lvcreate VGNAME SWAPNAME (swap_size d1.free) "linear" none none) none,
    .call (.bd_swap_mkswap ("/dev/" ++ VGNAME ++ "/" ++ SWAPNAME) SWAPLABEL none) none,
    .vginfo VGNAME (.ok d2),
    .call (.bd_lvm_lvcreate VGNAME DATANAME d2.free "linear" none none) none,
    .call (.bd_crypto_luks_format ("/dev/" ++ VGNAME ++ "/" ++ DATANAME) none 0 PASSPHRASE
      none 0) none,
    .call (.bd_crypto_luks_open ("/dev/" ++ VGNAME ++ "/" ++ DATANAME)
      (LUKSNAME ++ "-" ++ DATANAME) PASSPHRASE none false) none,
    .call (.bd_fs_xfs_mkfs ("/dev/mapper/" ++ (LUKSNAME ++ "-" ++ DATANAME))
      (some [("-L", DATALABEL)])) none ]

/-- An event whose operation succeeded. -/
def Event.succeeded : Event → Bool
  | .call _ none => true
  | .vginfo _ (.ok _) => true
  | _ => false

/-- A mock backend: its state counts the operations performed so far; the
operation number `fail_at` (from 0) fails, every other one succeeds, and a
volume-group query that is operation number `n` reports `free n` bytes. -/
def mock_backend (fail_at : Nat) (free : Nat → Nat) : Backend Nat where
  BD_FS_ERROR := 1
  BD_FS_ERROR_NOFS := 3
  run := fun _ n => (if n = fail_at then some ⟨0, 0, "mock failure"⟩ else none, n + 1)
  bd_lvm_vginfo := fun _ n =>
    (if n = fail_at then .error ⟨0, 0, "mock failure"⟩ else .ok ⟨free n⟩, n + 1)

/-- The backend `B` with every `bd_fs_wipe` that fails with `BD_FS_ERROR_NOFS`
replaced by the same call succeeding (same state afterwards). -/
def wipe_nofs_succeeds {σ : Type} (B : Backend σ) : Backend σ where
  BD_FS_ERROR := B.BD_FS_ERROR
  BD_FS_ERROR_NOFS := B.BD_FS_ERROR_NOFS
  run := fun c s =>
    match c with
    | .bd_fs_wipe d a =>
      if g_error_matches (B.run (.bd_fs_wipe d a) s).1 B.BD_FS_ERROR B.BD_FS_ERROR_NOFS then
        (none, (B.run (.bd_fs_wipe d a) s).2)
      else B.run (.bd_fs_wipe d a) s
    | c => B.run c s
  bd_lvm_vginfo := B.bd_lvm_vginfo

/-- Two runs with the same result, final state and operations (replies apart). -/
def Run.same {σ : Type} (r1 r2 : Run σ Unit) : Prop :=
  r1.result = r2.result ∧ r1.state = r2.state ∧
    r1.trace.map Event.inv = r2.trace.map Event.inv

/-! ## A model of the storage backend

libblockdev and the tools under it are not part of the repository.  For the
round trip of provisioning and teardown the backend is modelled from the
specification: its data model (disks, physical volumes, volume groups, logical
volumes, mapped encrypted volumes) and the contracts of its operations. -/

/-- Modelled from the spec: a volume group (the backend is not in src/): member
disks, extent size, free-space counter, number of logical volumes in it. -/
structure VG where
  pvs : List String
  extent_size : Nat
  free : Nat
  lvs : Nat
  deriving DecidableEq, Repr

/-- Modelled from the spec: a logical volume (the backend is not in src/): its
volume group, its size, and whether an encrypted volume is open on it. -/
structure LV where
  vg : String
  size : Nat
  in_use : Bool
  deriving DecidableEq, Repr

/-- Modelled from the spec: the state of the storage backend (the backend is not
in src/).  Per disk path its capacity, whether it carries a signature and
whether it is a physical volume; per name the volume group; per device path
`/dev/<vg>/<lv>` the logical volume; per path `/dev/mapper/<name>` the device
under the mapped encrypted volume.  What is written inside a logical volume is
not part of the state: it disappears with the volume. -/
structure Storage where
  capacity : String → Nat
  signature : String → Bool
  pv : String → Bool
  vg : String → Option VG
  lv : String → Option LV
  mapped : String → Option String

/-- Error domain and code of the "no filesystem" outcome in the model. -/
def MODEL_FS_ERROR : Nat := 1
def MODEL_FS_ERROR_NOFS : Int := 3

/-- Any other failure of the model: the message says which resource is missing. -/
def model_error (message : String) : GError := ⟨2, 0, message⟩

/-- Modelled from the spec: `wipe_signatures(disk) -> ok | NoFilesystemFound`
(the backend is not in src/): a signature is removed; a disk without one gives
the benign "no filesystem" outcome and is left as it is. -/
def Storage.wipe_signatures (st : Storage) (disk : String) : Option GError × Storage :=
  if st.signature disk then
    (none, { st with signature := Function.update st.signature disk false })
  else
    (some ⟨MODEL_FS_ERROR, MODEL_FS_ERROR_NOFS, "no filesystem found"⟩, st)

/-- Modelled from the spec: `pv_create(disk)` (the backend is not in src/). -/
def Storage.pv_create (st : Storage) (disk : String) : Option GError × Storage :=
  (none, { st with pv := Function.update st.pv disk true })

/-- Modelled from the spec: `vg_create(name, disks, extent_size)` (the backend is
not in src/): the name must be new and every disk a physical volume; all the
capacity of the disks is free. -/
def Storage.vg_create (st : Storage) (name : String) (disks : List String) (extent : Nat) :
    Option GError × Storage :=
  match st.vg name with
  | some _ => (some (model_error "volume group exists"), st)
  | none =>
    if disks.all st.pv then
      let v : VG := ⟨disks, extent, (disks.map st.capacity).sum, 0⟩
      (none, { st with vg := Function.update st.vg name (some v) })
    else (some (model_error "not a physical volume"), st)

/-- Modelled from the spec: `vg_info(name) -> {free_space, ...} | Error` (the
backend is not in src/). -/
def Storage.vg_info (st : Storage) (name : String) : Except GError BDLVMVGdata × Storage :=
  match st.vg name with
  | some v => (.ok ⟨v.free⟩, st)
  | none => (.error (model_error "no such volume group"), st)

/-- Modelled from the spec: `lv_create(vg, name, size)` (the backend is not in
src/): carves `size` bytes out of the free space of an existing volume group. -/
def Storage.lv_create (st : Storage) (vg name : String) (size : Nat) :
    Option GError × Storage :=
  match st.vg vg, st.lv ("/dev/" ++ vg ++ "/" ++ name) with
  | some v, none =>
    if size ≤ v.free then
      let v2 : VG := { v with free := v.free - size, lvs := v.lvs + 1 }
      (none, { st with
        vg := Function.update st.vg vg (some v2),
        lv := Function.update st.lv ("/dev/" ++ vg ++ "/" ++ name) (some ⟨vg, size, false⟩) })
    else (some (model_error "not enough free space"), st)
  | some _, some _ => (some (model_error "logical volume exists"), st)
  | none, _ => (some (model_error "no such volume group"), st)

/-- Modelled from the spec: `swap_format`, `encrypted_format` (the backend is
not in src/): the device must be an existing logical volume. -/
def Storage.format_lv (st : Storage) (device : String) : Option GError × Storage :=
  match st.lv device with
  | some _ => (none, st)
  | none => (some (model_error "no such device"), st)

/-- Modelled from the spec: `encrypted_open(device_path, mapped_name)` (the
backend is not in src/): maps the volume under `/dev/mapper/<name>`. -/
def Storage.encrypted_open (st : Storage) (device name : String) : Option GError × Storage :=
  match st.lv device, st.mapped ("/dev/mapper/" ++ name) with
  | some l, none =>
    (none, { st with
      lv := Function.update st.lv device (some { l with in_use := true }),
      mapped := Function.update st.mapped ("/dev/mapper/" ++ name) (some device) })
  | some _, some _ => (some (model_error "mapping exists"), st)
  | none, _ => (some (model_error "no such device"), st)

/-- Modelled from the spec: `filesystem_create(device_path)` (the backend is not
in src/): the device must be a mapped encrypted volume. -/
def Storage.filesystem_create (st : Storage) (device : String) : Option GError × Storage :=
  match st.mapped device with
  | some _ => (none, st)
  | none => (some (model_error "no such device"), st)

/-- Modelled from the spec: `encrypted_close(mapped_path)` (the backend is not
in src/). -/
def Storage.encrypted_close (st : Storage) (path : String) : Option GError × Storage :=
  match st.mapped path with
  | some device =>
    let l := (st.lv device).map fun l => { l with in_use := false }
    (none, { st with
      mapped := Function.update st.mapped path none,
      lv := Function.update st.lv device l })
  | none => (some (model_error "no such mapping"), st)

/-- Modelled from the spec: `lv_remove(vg, name)` (the backend is not in src/):
the volume must exist and no encrypted volume be open on it; its space is free
again. -/
def Storage.lv_remove (st : Storage) (vg name : String) : Option GError × Storage :=
  match st.vg vg, st.lv ("/dev/" ++ vg ++ "/" ++ name) with
  | some v, some l =>
    if l.in_use then (some (model_error "logical volume in use"), st)
    else
      let v2 : VG := { v with free := v.free + l.size, lvs := v.lvs - 1 }
      (none, { st with
        vg := Function.update st.vg vg (some v2),
        lv := Function.update st.lv ("/dev/" ++ vg ++ "/" ++ name) none })
  | _, _ => (some (model_error "no such logical volume"), st)

/-- Modelled from the spec: `vg_remove(name)` (the backend is not in src/): the
volume group must exist and hold no logical volume. -/
def Storage.vg_remove (st : Storage) (name : String) : Option GError × Storage :=
  match st.vg name with
  | some v =>
    if v.lvs = 0 then (none, { st with vg := Function.update st.vg name none })
    else (some (model_error "volume group not empty"), st)
  | none => (some (model_error "no such volume group"), st)

/-- Modelled from the spec: `pv_remove(disk)` (the backend is not in src/). -/
def Storage.pv_remove (st : Storage) (disk : String) : Option GError × Storage :=
  if st.pv disk then (none, { st with pv := Function.update st.pv disk false })
  else (some (model_error "not a physical volume"), st)

/-- Modelled from the spec: the storage backend (not in src/) as a `Backend`
over `Storage`, each libblockdev call mapped to its operation of the model. -/
def storage_backend : Backend Storage where
  BD_FS_ERROR := MODEL_FS_ERROR
  BD_FS_ERROR_NOFS := MODEL_FS_ERROR_NOFS
  run := fun c st =>
    match c with
    | .bd_fs_wipe device _ => st.wipe_signatures device
    | .bd_lvm_pvcreate device _ _ _ => st.pv_create device
    | .bd_lvm_vgcreate name pv_list pe_size _ => st.vg_create name pv_list pe_size
    | .bd_lvm_lvcreate vg_name lv_name size _ _ _ => st.lv_create vg_name lv_name size
    | .bd_swap_mkswap device _ _ => st.format_lv device
    | .bd_crypto_luks_format device _ _ _ _ _ => st.format_lv device
    | .bd_crypto_luks_open device name _ _ _ => st.encrypted_open device name
    | .bd_fs_xfs_mkfs device _ => st.filesystem_create device
    | .bd_crypto_luks_close luks_device => st.encrypted_close luks_device
    | .bd_lvm_lvremove vg_name lv_name _ _ => st.lv_remove vg_name lv_name
    | .bd_lvm_vgremove name _ => st.vg_remove name
    | .bd_lvm_pvremove device _ => st.pv_remove device
  bd_lvm_vginfo := fun name st => st.vg_info name

/-- A backend state with nothing on it but a signature on `/dev/sda`; every
disk has 10 GiB. -/
def storage_with_signature : Storage where
  capacity := fun _ => 10737418240
  signature := fun d => d = "/dev/sda"
  pv := fun _ => false
  vg := fun _ => none
  lv := fun _ => none
  mapped := fun _ => none

/-- A backend state with nothing on it at all; every disk has 10 GiB. -/
def storage_empty : Storage where
  capacity := fun _ => 10737418240
  signature := fun _ => false
  pv := fun _ => false
  vg := fun _ => none
  lv := fun _ => none
  mapped := fun _ => none

/-- The backend state after a successful provisioning of `d0` and `d1` from `st`. -/
def provisioned (d0 d1 : String) (st : Storage) : Storage :=
  { st with
    pv := Function.update (Function.update st.pv d0 true) d1 true,
    vg := Function.update st.vg "demo_1_libblockdev"
      (some ⟨[d0, d1], 8388608, 0, 2⟩),
    lv := Function.update (Function.update st.lv "/dev/demo_1_libblockdev/swap"
        (some ⟨"demo_1_libblockdev", swap_size (st.capacity d0 + st.capacity d1), false⟩))
      "/dev/demo_1_libblockdev/data"
        (some ⟨"demo_1_libblockdev",
          st.capacity d0 + st.capacity d1 - swap_size (st.capacity d0 + st.capacity d1), true⟩),
    mapped := Function.update st.mapped "/dev/mapper/test-luks-data"
      (some "/dev/demo_1_libblockdev/data") }

/-! ## demo-1-progress.c : the program -/

def EXIT_SUCCESS : Int := 0
def EXIT_FAILURE : Int := 1

/-- What libblockdev does for the progress program: the error `bd_ensure_init`
sets (`none`: it returned TRUE), what `bd_utils_prog_reporting_initialized`
answers after `bd_utils_init_prog_reporting`, and for `bd_fs_ext4_check` on a
device the progress events it delivers to the callback and the error it sets. -/
structure CheckBackend where
  bd_ensure_init : Option GError
  bd_utils_prog_reporting_initialized : Bool
  bd_fs_ext4_check : String → List ProgEvent × Option GError

/-- A run of `fsck_blockdev`: the `int` returned, whether `bd_fs_ext4_check` was
called, the error it left in `error`, and the lines the callback printed. -/
structure FsckRun where
  ret : Int
  check_called : Bool
  check_error : Option GError
  lines : List Line
  deriving DecidableEq

/-- The function `fsck_blockdev (fs, fd_str)`; `fd_str` is not read. -/
def fsck_blockdev (w : CheckBackend) (fs : String) : FsckRun :=
  match w.bd_ensure_init with
  | some _ => ⟨1, false, none, []⟩  -- g_print (...); return 1;
  | none =>
    -- bd_utils_init_prog_reporting (prog_report, &error);
    if !w.bd_utils_prog_reporting_initialized then
      ⟨1, false, none, []⟩  -- g_print (...); return 1;
    else
      -- bd_fs_ext4_check (fs, NULL, &error); return 0;
      let r := w.bd_fs_ext4_check fs
      ⟨0, true, r.2, (prog_run last_perc_init r.1).2.flatten⟩

/-- The scan `while ((opt = getopt (argc, argv, "")) != -1)` over the arguments
after `argv[0]`, for GNU `getopt` (which permutes): with an empty option string
every option element (it starts with `-` and is neither `-` nor `--`) is
unknown, so `getopt` returns `'?'`: `none`.  Otherwise the operands left at
`argv[optind ..]`: the non-option elements and all that follows a `--`. -/
def getopt_operands : List String → Option (List String)
  | [] => some []
  | a :: rest =>
    if a = "--" then some rest
    else
      match a.data with
      | '-' :: _ :: _ => none
      | _ => (getopt_operands rest).map (fun ops => a :: ops)

/-- The function `main (argc, argv)` of demo-1-progress.c: the exit status.
`uid` is what `getuid ()` returns. -/
def progress_main (argv : List String) (uid : Nat) (w : CheckBackend) : Int :=
  match getopt_operands argv.tail with
  | none => EXIT_FAILURE  -- default: print_usage; exit (EXIT_FAILURE);
  | some [] => EXIT_FAILURE  -- if (optind >= argc)
  | some (devicename :: more) =>
    if more ≠ [] then EXIT_FAILURE  -- if (optind < argc-1)
    else if uid ≠ 0 then EXIT_FAILURE  -- if (getuid () != 0)
    else
      -- fsck_blockdev (devicename, "1"); printf ("\n"); return EXIT_SUCCESS;
      let _r := fsck_blockdev w devicename
      EXIT_SUCCESS

/-- A backend of the progress program whose `bd_ensure_init` fails. -/
def check_backend_init_fails : CheckBackend where
  bd_ensure_init := some ⟨0, 0, "plugin not found"⟩
  bd_utils_prog_reporting_initialized := false
  bd_fs_ext4_check := fun _ => ([], none)

/-- A backend of the progress program on which the filesystem check fails. -/
def check_backend_check_fails : CheckBackend where
  bd_ensure_init := none
  bd_utils_prog_reporting_initialized := true
  bd_fs_ext4_check := fun _ => ([(10, none)], some ⟨1, 2, "e2fsck failed"⟩)

/-! ## Theorems -/

theorem to_gint8_of_lt (c : Nat) (h : c < 128) : to_gint8 (c : Int) = c := by
  unfold to_gint8; omega

theorem prog_run_refines (evs : List ProgEvent) :
    ∀ last : Option Nat, (∀ c, last = some c → c ≤ 100) → (∀ e ∈ evs, e.1 ≤ 100) →
      prog_run (spec_state last) evs
        = (spec_state (spec_reporter last evs).1, (spec_reporter last evs).2) := by
  induction evs with
  | nil => intro last _ _; simp [prog_run, spec_reporter]
  | cons e evs ih =>
    intro last hl he
    obtain ⟨c, m⟩ := e
    have hc : c ≤ 100 := he (c, m) (List.mem_cons_self _ _)
    have hevs : ∀ e ∈ evs, e.1 ≤ 100 := fun e h => he e (List.mem_cons_of_mem _ h)
    have hmod : c % 256 = c := Nat.mod_eq_of_lt (by omega)
    cases m with
    | some m =>
      simp [prog_run, spec_reporter, prog_report, ih last hl hevs]
    | none =>
      by_cases hEq : last = some c
      · subst hEq
        have := ih (some c) hl hevs
        simp only [spec_state] at this
        simp [prog_run, spec_reporter, prog_report, hmod, spec_state, this]
      · have hne : (c : Int) ≠ spec_state last := by
          cases last with
          | none => simp only [spec_state]; omega
          | some d =>
            simp only [spec_state]
            intro h
            exact hEq (by rw [Nat.cast_inj.mp h])
        have h8 : to_gint8 (c : Int) = spec_state (some c) := by
          simp [spec_state, to_gint8_of_lt c (by omega)]
        have := ih (some c) (by intro d hd; cases hd; exact hc) hevs
        simp [prog_run, spec_reporter, prog_report, hmod, hEq, hne, h8, this]

/-! ### Running the pieces of a pipeline -/

@[simp] theorem pure_run {σ α : Type} (a : α) (s : σ) :
    (pure a : Pipe σ α) s = ⟨.ok a, s, []⟩ := rfl

@[simp] theorem return_FALSE_run {σ α : Type} (e : GError) (s : σ) :
    (return_FALSE e : Pipe σ α) s = ⟨.error e, s, []⟩ := rfl

theorem bind_run {σ α β : Type} (m : Pipe σ α) (f : α → Pipe σ β) (s : σ) :
    (m >>= f) s = Pipe.bind m f s := rfl

theorem call_bind_run {σ β : Type} (B : Backend σ) (c : Call)
    (f : Option GError → Pipe σ β) (s : σ) :
    (call B c >>= f) s =
      (f (B.run c s).1 (B.run c s).2).cons (Event.call c (B.run c s).1) := rfl

theorem vginfo_bind_run {σ β : Type} (B : Backend σ) (n : String)
    (f : Except GError BDLVMVGdata → Pipe σ β) (s : σ) :
    (vginfo B n >>= f) s =
      (f (B.bd_lvm_vginfo n s).1 (B.bd_lvm_vginfo n s).2).cons
        (Event.vginfo n (B.bd_lvm_vginfo n s).1) := rfl

@[simp] theorem check_none_bind {σ β : Type} (pre : String) (f : Unit → Pipe σ β) :
    ((check none pre : Pipe σ Unit) >>= f) = f () := rfl

@[simp] theorem check_some_bind {σ β : Type} (e : GError) (pre : String)
    (f : Unit → Pipe σ β) :
    ((check (some e) pre : Pipe σ Unit) >>= f) = return_FALSE (g_prefix_error e pre) := rfl

@[simp] theorem check_none_run {σ : Type} (pre : String) (s : σ) :
    (check none pre : Pipe σ Unit) s = ⟨.ok (), s, []⟩ := rfl

@[simp] theorem check_some_run {σ : Type} (e : GError) (pre : String) (s : σ) :
    (check (some e) pre : Pipe σ Unit) s = ⟨.error (g_prefix_error e pre), s, []⟩ := rfl

@[simp] theorem check_data_ok_bind {σ β : Type} (d : BDLVMVGdata) (pre : String)
    (f : BDLVMVGdata → Pipe σ β) :
    ((check_data (.ok d) pre : Pipe σ BDLVMVGdata) >>= f) = f d := rfl

@[simp] theorem check_data_error_bind {σ β : Type} (e : GError) (pre : String)
    (f : BDLVMVGdata → Pipe σ β) :
    ((check_data (.error e) pre : Pipe σ BDLVMVGdata) >>= f)
      = return_FALSE (g_prefix_error e pre) := rfl



theorem create_storage_rest_cases {σ : Type} (B : Backend σ) (disks : List String) (s : σ) :
    ∃ (d1 d2 : BDLVMVGdata) (s1 : σ),
      d1.free = (vg_frees (create_storage_rest B disks s).trace).getD 0 0 ∧
      d2.free = (vg_frees (create_storage_rest B disks s).trace).getD 1 0 ∧
      (create_storage_rest B disks s = ⟨.ok (), s1, create_rest_events disks d1 d2⟩ ∨
      ∃ (k : Nat) (e : GError) (pre : String), k < 9 ∧
        create_storage_rest B disks s =
          ⟨.error (g_prefix_error e pre), s1,
            (create_rest_events disks d1 d2).take k ++
              [Event.failed (((create_rest_events disks d1 d2).map Event.inv).getD k
                (.vginfo "")) e]⟩) := by
  unfold create_storage_rest
  rw [call_bind_run]
  rcases h1 : B.run (.bd_lvm_vgcreate VGNAME disks (MIB 8) none) s with ⟨_ | e, s1⟩
  swap
  · exact ⟨⟨0⟩, ⟨0⟩, s1, rfl, rfl, Or.inr ⟨0, e, _, by decide, rfl⟩⟩
  simp only [check_none_bind]
  rw [vginfo_bind_run]
  rcases h2 : B.bd_lvm_vginfo VGNAME s1 with ⟨e | d1, s2⟩
  · exact ⟨⟨0⟩, ⟨0⟩, s2, rfl, rfl, Or.inr ⟨1, e, _, by decide, rfl⟩⟩
  simp only [check_data_ok_bind]
  rw [call_bind_run]
  rcases h3 : B.run (.bd_lvm_lvcreate VGNAME SWAPNAME (swap_size d1.free) "linear" none none) s2
    with ⟨_ | e, s3⟩
  swap
  · exact ⟨d1, ⟨0⟩, s3, rfl, rfl, Or.inr ⟨2, e, _, by decide, rfl⟩⟩
  simp only [check_none_bind]
  rw [call_bind_run]
  rcases h4 : B.run (.bd_swap_mkswap ("/dev/" ++ VGNAME ++ "/" ++ SWAPNAME) SWAPLABEL none) s3
    with ⟨_ | e, s4⟩
  swap
  · exact ⟨d1, ⟨0⟩, s4, rfl, rfl, Or.inr ⟨3, e, _, by decide, rfl⟩⟩
  simp only [check_none_bind]
  rw [vginfo_bind_run]
  rcases h5 : B.bd_lvm_vginfo VGNAME s4 with ⟨e | d2, s5⟩
  · exact ⟨d1, ⟨0⟩, s5, rfl, rfl, Or.inr ⟨4, e, _, by decide, rfl⟩⟩
  simp only [check_data_ok_bind]
  rw [call_bind_run]
  rcases h6 : B.run (.bd_lvm_lvcreate VGNAME DATANAME d2.free "linear" none none) s5
    with ⟨_ | e, s6⟩
  swap
  · exact ⟨d1, d2, s6, rfl, rfl, Or.inr ⟨5, e, _, by decide, rfl⟩⟩
  simp only [check_none_bind]
  rw [call_bind_run]
  rcases h7 : B.run (.bd_crypto_luks_format ("/dev/" ++ VGNAME ++ "/" ++ DATANAME) none 0
    PASSPHRASE none 0) s6 with ⟨_ | e, s7⟩
  swap
  · exact ⟨d1, d2, s7, rfl, rfl, Or.inr ⟨6, e, _, by decide, rfl⟩⟩
  simp only [check_none_bind]
  rw [call_bind_run]
  rcases h8 : B.run (.bd_crypto_luks_open ("/dev/" ++ VGNAME ++ "/" ++ DATANAME)
    (LUKSNAME ++ "-" ++ DATANAME) PASSPHRASE none false) s7 with ⟨_ | e, s8⟩
  swap
  · exact ⟨d1, d2, s8, rfl, rfl, Or.inr ⟨7, e, _, by decide, rfl⟩⟩
  simp only [check_none_bind]
  rw [call_bind_run]
  rcases h9 : B.run (.bd_fs_xfs_mkfs ("/dev/mapper/" ++ (LUKSNAME ++ "-" ++ DATANAME))
    (some [("-L", DATALABEL)])) s8 with ⟨_ | e, s9⟩
  swap
  · exact ⟨d1, d2, s9, rfl, rfl, Or.inr ⟨8, e, _, by decide, rfl⟩⟩
  exact ⟨d1, d2, s9, rfl, rfl, Or.inl rfl⟩

/-! ### Runs that stop at the first failure -/

theorem stops_nil {σ : Type} (B : Backend σ) : StopsAtFirstFailure B true [] [] :=
  Or.inl ⟨rfl, rfl, by simp⟩

theorem stops_cons {σ : Type} (B : Backend σ) {ret : Bool} {t : List Event}
    {sc : List Invocation} (ev : Event) (hev : ev.aborts B = false)
    (h : StopsAtFirstFailure B ret t sc) :
    StopsAtFirstFailure B ret (ev :: t) (ev.inv :: sc) := by
  rcases h with ⟨hr, hm, ha⟩ | ⟨hr, pre, last, ht, hpre, hlast, hp⟩
  · refine Or.inl ⟨hr, by simp [hm], ?_⟩
    intro x hx
    rcases List.mem_cons.mp hx with rfl | hx
    · exact hev
    · exact ha x hx
  · refine Or.inr ⟨hr, ev :: pre, last, by simp [ht], ?_, hlast, ?_⟩
    · intro x hx
      rcases List.mem_cons.mp hx with rfl | hx
      · exact hev
      · exact hpre x hx
    · simpa using hp

theorem stops_fail {σ : Type} (B : Backend σ) (ev : Event) (sc : List Invocation)
    (hev : ev.aborts B = true) :
    StopsAtFirstFailure B false [ev] (ev.inv :: sc) :=
  Or.inr ⟨rfl, [], ev, rfl, by simp, hev, by simp⟩

theorem stops_append {σ : Type} (B : Backend σ) {ret : Bool} {t1 t2 : List Event}
    {sc1 sc2 : List Invocation} (h1 : StopsAtFirstFailure B true t1 sc1)
    (h2 : StopsAtFirstFailure B ret t2 sc2) :
    StopsAtFirstFailure B ret (t1 ++ t2) (sc1 ++ sc2) := by
  rcases h1 with ⟨_, hm1, ha1⟩ | ⟨hr, _⟩
  swap
  · cases hr
  rcases h2 with ⟨hr, hm, ha⟩ | ⟨hr, pre, last, ht, hpre, hlast, hp⟩
  · refine Or.inl ⟨hr, by simp [hm1, hm], ?_⟩
    intro x hx
    rcases List.mem_append.mp hx with hx | hx
    · exact ha1 x hx
    · exact ha x hx
  · refine Or.inr ⟨hr, t1 ++ pre, last, by simp [ht], ?_, hlast, ?_⟩
    · intro x hx
      rcases List.mem_append.mp hx with hx | hx
      · exact ha1 x hx
      · exact hpre x hx
    · rw [List.map_append, hm1]
      exact (List.prefix_append_right_inj sc1).mpr hp

theorem stops_fail_append {σ : Type} (B : Backend σ) {t1 : List Event}
    {sc1 : List Invocation} (sc2 : List Invocation)
    (h1 : StopsAtFirstFailure B false t1 sc1) :
    StopsAtFirstFailure B false t1 (sc1 ++ sc2) := by
  rcases h1 with ⟨hr, _⟩ | ⟨hr, pre, last, ht, hpre, hlast, hp⟩
  · cases hr
  · exact Or.inr ⟨hr, pre, last, ht, hpre, hlast, hp.trans (List.prefix_append sc1 sc2)⟩

theorem stops_initial_segment {σ : Type} {B : Backend σ} {ret : Bool} {t : List Event}
    {sc : List Invocation} (h : StopsAtFirstFailure B ret t sc) :
    t.map Event.inv <+: sc := by
  rcases h with ⟨_, hm, _⟩ | ⟨_, _, _, _, _, _, hp⟩
  · rw [hm]
  · exact hp

theorem stops_full {σ : Type} {B : Backend σ} {ret : Bool} {t : List Event}
    {sc : List Invocation} (h : StopsAtFirstFailure B ret t sc) (hr : ret = true) :
    t.map Event.inv = sc ∧ ∀ ev ∈ t, ev.aborts B = false := by
  rcases h with ⟨_, hm, ha⟩ | ⟨hr2, _⟩
  · exact ⟨hm, ha⟩
  · rw [hr] at hr2; cases hr2

theorem stops_last {σ : Type} {B : Backend σ} {ret : Bool} {t : List Event}
    {sc : List Invocation} (h : StopsAtFirstFailure B ret t sc) (hr : ret = false) :
    ∃ pre ev, t = pre ++ [ev] ∧ ev.aborts B = true := by
  rcases h with ⟨hr2, _⟩ | ⟨_, pre, last, ht, _, hlast, _⟩
  · rw [hr] at hr2; cases hr2
  · exact ⟨pre, last, ht, hlast⟩

theorem stops_nothing_after {σ : Type} {B : Backend σ} {ret : Bool} {t : List Event}
    {sc : List Invocation} (h : StopsAtFirstFailure B ret t sc)
    (pre : List Event) (ev : Event) (post : List Event) (ht : t = pre ++ ev :: post)
    (hev : ev.aborts B = true) : post = [] ∧ ret = false := by
  rcases h with ⟨_, _, ha⟩ | ⟨hr, pre2, last, ht2, hpre, _, _⟩
  · have := ha ev (by rw [ht]; simp)
    rw [hev] at this; cases this
  · refine ⟨?_, hr⟩
    rcases List.eq_nil_or_concat post with rfl | ⟨post2, x, rfl⟩
    · rfl
    · exfalso
      have h3 : pre2 ++ [last] = (pre ++ ev :: post2) ++ [x] := by
        rw [← ht2, ht]; simp
      have h4 := List.append_inj_left' h3 rfl
      have := hpre ev (by rw [h4]; simp)
      rw [hev] at this; cases this

/-! ### One turn of the loops -/

@[simp] theorem return_FALSE_bind {σ α β : Type} (e : GError) (f : α → Pipe σ β) :
    ((return_FALSE e : Pipe σ α) >>= f) = return_FALSE e := rfl

@[simp] theorem pure_bind_pipe {σ α β : Type} (a : α) (f : α → Pipe σ β) :
    ((pure a : Pipe σ α) >>= f) = f a := by
  funext s
  show Pipe.bind (pure a) f s = f a s
  simp [Pipe.bind]

theorem create_storage_loop_nil {σ : Type} (B : Backend σ) (s : σ) :
    create_storage_loop B [] s = ⟨.ok (), s, []⟩ := rfl

theorem create_storage_loop_wipe_fails {σ : Type} (B : Backend σ) (d : String)
    (ds : List String) (s : σ) (e : GError)
    (hw : (B.run (.bd_fs_wipe d true) s).1 = some e)
    (hm : g_error_matches (some e) B.BD_FS_ERROR B.BD_FS_ERROR_NOFS = false) :
    create_storage_loop B (d :: ds) s =
      ⟨.error (g_prefix_error e ("Error when wiping " ++ d ++ ": ")),
        (B.run (.bd_fs_wipe d true) s).2, [.call (.bd_fs_wipe d true) (some e)]⟩ := by
  unfold create_storage_loop
  rw [call_bind_run, hw]
  simp [hm, Run.cons]

theorem create_storage_loop_pvcreate_fails {σ : Type} (B : Backend σ) (d : String)
    (ds : List String) (s : σ) (e : GError)
    (hw : (Event.call (.bd_fs_wipe d true) (B.run (.bd_fs_wipe d true) s).1).aborts B = false)
    (hp : (B.run (.bd_lvm_pvcreate d 0 0 none) (B.run (.bd_fs_wipe d true) s).2).1 = some e) :
    create_storage_loop B (d :: ds) s =
      ⟨.error (g_prefix_error e ("Error when creating lvmpv format on " ++ d ++ ": ")),
        (B.run (.bd_lvm_pvcreate d 0 0 none) (B.run (.bd_fs_wipe d true) s).2).2,
        [.call (.bd_fs_wipe d true) (B.run (.bd_fs_wipe d true) s).1,
         .call (.bd_lvm_pvcreate d 0 0 none) (some e)]⟩ := by
  unfold create_storage_loop
  rw [call_bind_run]
  rcases hw1 : (B.run (.bd_fs_wipe d true) s).1 with _ | e1
  · simp only [pure_bind_pipe]
    rw [call_bind_run, hp]
    simp [Run.cons]
  · rw [hw1] at hw
    have hm : g_error_matches (some e1) B.BD_FS_ERROR B.BD_FS_ERROR_NOFS = true := by
      simpa [Event.aborts] using hw
    simp only [hm, if_true, pure_bind_pipe]
    rw [call_bind_run, hp]
    simp [Run.cons]

theorem create_storage_loop_continues {σ : Type} (B : Backend σ) (d : String)
    (ds : List String) (s : σ)
    (hw : (Event.call (.bd_fs_wipe d true) (B.run (.bd_fs_wipe d true) s).1).aborts B = false)
    (hp : (B.run (.bd_lvm_pvcreate d 0 0 none) (B.run (.bd_fs_wipe d true) s).2).1 = none) :
    create_storage_loop B (d :: ds) s =
      ((create_storage_loop B ds
          (B.run (.bd_lvm_pvcreate d 0 0 none) (B.run (.bd_fs_wipe d true) s).2).2).cons
        (.call (.bd_lvm_pvcreate d 0 0 none) none)).cons
        (.call (.bd_fs_wipe d true) (B.run (.bd_fs_wipe d true) s).1) := by
  conv => lhs; unfold create_storage_loop
  rw [call_bind_run]
  rcases hw1 : (B.run (.bd_fs_wipe d true) s).1 with _ | e1
  · simp only [pure_bind_pipe]
    rw [call_bind_run, hp]
    simp
  · rw [hw1] at hw
    have hm : g_error_matches (some e1) B.BD_FS_ERROR B.BD_FS_ERROR_NOFS = true := by
      simpa [Event.aborts] using hw
    simp only [hm, if_true, pure_bind_pipe]
    rw [call_bind_run, hp]
    simp

/-- The three ways one turn of the loop of `create_storage` can go. -/
theorem create_storage_loop_cases {σ : Type} (B : Backend σ) (d : String) (s : σ) :
    (∃ e, (B.run (.bd_fs_wipe d true) s).1 = some e ∧
        g_error_matches (some e) B.BD_FS_ERROR B.BD_FS_ERROR_NOFS = false) ∨
    ((Event.call (.bd_fs_wipe d true) (B.run (.bd_fs_wipe d true) s).1).aborts B = false ∧
      ∃ e, (B.run (.bd_lvm_pvcreate d 0 0 none) (B.run (.bd_fs_wipe d true) s).2).1 = some e) ∨
    ((Event.call (.bd_fs_wipe d true) (B.run (.bd_fs_wipe d true) s).1).aborts B = false ∧
      (B.run (.bd_lvm_pvcreate d 0 0 none) (B.run (.bd_fs_wipe d true) s).2).1 = none) := by
  rcases hw1 : (B.run (.bd_fs_wipe d true) s).1 with _ | e1
  · rcases hp : (B.run (.bd_lvm_pvcreate d 0 0 none) (B.run (.bd_fs_wipe d true) s).2).1
      with _ | e
    · exact Or.inr (Or.inr ⟨rfl, rfl⟩)
    · exact Or.inr (Or.inl ⟨rfl, e, rfl⟩)
  · rcases hm : g_error_matches (some e1) B.BD_FS_ERROR B.BD_FS_ERROR_NOFS
    · exact Or.inl ⟨e1, rfl, hm⟩
    · rcases hp : (B.run (.bd_lvm_pvcreate d 0 0 none) (B.run (.bd_fs_wipe d true) s).2).1
        with _ | e
      · exact Or.inr (Or.inr ⟨by simp [Event.aborts, hm], rfl⟩)
      · exact Or.inr (Or.inl ⟨by simp [Event.aborts, hm], e, rfl⟩)

/-! ### The constants of the call sequences -/

theorem swap_size_eq (f : Nat) : swap_size f = min 1073741824 (f / 10) := by
  unfold swap_size MIN
  have : GIB 1 = 1073741824 := by decide
  rw [this]
  split <;> omega

theorem create_rest_events_inv (disks : List String) (d1 d2 : BDLVMVGdata) :
    (create_rest_events disks d1 d2).map Event.inv
      = create_sequence_rest disks d1.free d2.free := by
  have h1 : "/dev/" ++ VGNAME ++ "/" ++ SWAPNAME = "/dev/demo_1_libblockdev/swap" := by decide
  have h2 : "/dev/" ++ VGNAME ++ "/" ++ DATANAME = "/dev/demo_1_libblockdev/data" := by decide
  have h3 : LUKSNAME ++ "-" ++ DATANAME = "test-luks-data" := by decide
  have h4 : "/dev/mapper/" ++ (LUKSNAME ++ "-" ++ DATANAME) = "/dev/mapper/test-luks-data" := by
    decide
  have h5 : MIB 8 = 8388608 := by decide
  simp only [create_rest_events, h1, h2, h3, h4, h5, swap_size_eq, List.map, Event.inv,
    create_sequence_rest]
  rfl

theorem create_rest_events_ok {σ : Type} (B : Backend σ) (disks : List String)
    (d1 d2 : BDLVMVGdata) : ∀ ev ∈ create_rest_events disks d1 d2, ev.aborts B = false := by
  intro ev hev
  simp only [create_rest_events, List.mem_cons, List.mem_singleton, List.not_mem_nil,
    or_false] at hev
  rcases hev with rfl | rfl | rfl | rfl | rfl | rfl | rfl | rfl | rfl <;> rfl

theorem create_storage_rest_stops {σ : Type} (B : Backend σ) (disks : List String) (s : σ) :
    StopsAtFirstFailure B (create_storage_rest B disks s).ret
      (create_storage_rest B disks s).trace
      (create_sequence_rest disks ((vg_frees (create_storage_rest B disks s).trace).getD 0 0)
        ((vg_frees (create_storage_rest B disks s).trace).getD 1 0)) := by
  obtain ⟨d1, d2, s1, hf1, hf2, h⟩ := create_storage_rest_cases B disks s
  rw [← hf1, ← hf2, ← create_rest_events_inv]
  rcases h with h | ⟨k, e, pre, hk, h⟩
  · rw [h]
    exact Or.inl ⟨rfl, rfl, create_rest_events_ok B disks d1 d2⟩
  · rw [h]
    refine Or.inr ⟨rfl, _, _, rfl, ?_, ?_, ?_⟩
    · intro x hx
      exact create_rest_events_ok B disks d1 d2 x (List.mem_of_mem_take hx)
    · interval_cases k <;> rfl
    · interval_cases k <;> simp [create_rest_events, Event.failed, Event.inv]

/-! ### The loop of create_storage and the whole pipeline -/

theorem create_storage_loop_stops {σ : Type} (B : Backend σ) (disks : List String) :
    ∀ s : σ, StopsAtFirstFailure B (create_storage_loop B disks s).ret
      (create_storage_loop B disks s).trace (create_sequence_disks disks) := by
  induction disks with
  | nil => intro s; exact stops_nil B
  | cons d ds ih =>
    intro s
    rcases create_storage_loop_cases B d s with ⟨e, hw, hm⟩ | ⟨hw, e, hp⟩ | ⟨hw, hp⟩
    · rw [create_storage_loop_wipe_fails B d ds s e hw hm]
      exact stops_fail B (.call (.bd_fs_wipe d true) (some e)) _ (by simp [Event.aborts, hm])
    · rw [create_storage_loop_pvcreate_fails B d ds s e hw hp]
      exact stops_cons B _ hw (stops_fail B (.call (.bd_lvm_pvcreate d 0 0 none) (some e)) _ rfl)
    · rw [create_storage_loop_continues B d ds s hw hp]
      exact stops_cons B _ hw (stops_cons B (.call (.bd_lvm_pvcreate d 0 0 none) none) rfl
        (ih _))

/-- Every call of the loop of `create_storage` is a wipe or a pvcreate. -/
theorem create_storage_loop_calls {σ : Type} (B : Backend σ) (disks : List String) :
    ∀ s : σ, ∀ ev ∈ (create_storage_loop B disks s).trace,
      ∃ d r, ev = .call (.bd_fs_wipe d true) r ∨ ev = .call (.bd_lvm_pvcreate d 0 0 none) r := by
  induction disks with
  | nil => intro s ev hev; simp [create_storage_loop_nil] at hev
  | cons d ds ih =>
    intro s ev hev
    rcases create_storage_loop_cases B d s with ⟨e, hw, hm⟩ | ⟨hw, e, hp⟩ | ⟨hw, hp⟩
    · rw [create_storage_loop_wipe_fails B d ds s e hw hm] at hev
      simp only [List.mem_singleton] at hev
      exact ⟨d, some e, Or.inl hev⟩
    · rw [create_storage_loop_pvcreate_fails B d ds s e hw hp] at hev
      simp only [List.mem_cons, List.mem_singleton, List.not_mem_nil, or_false] at hev
      rcases hev with rfl | rfl
      · exact ⟨d, _, Or.inl rfl⟩
      · exact ⟨d, _, Or.inr rfl⟩
    · rw [create_storage_loop_continues B d ds s hw hp] at hev
      simp only [Run.cons, List.mem_cons] at hev
      rcases hev with rfl | rfl | hev
      · exact ⟨d, _, Or.inl rfl⟩
      · exact ⟨d, _, Or.inr rfl⟩
      · exact ih _ ev hev

theorem vg_frees_append (t1 t2 : List Event) :
    vg_frees (t1 ++ t2) = vg_frees t1 ++ vg_frees t2 := by
  induction t1 with
  | nil => rfl
  | cons ev t ih =>
    rcases ev with ⟨c, r⟩ | ⟨n, _ | d⟩ <;> simp [vg_frees, ih]

theorem vg_frees_of_calls (t : List Event) (h : ∀ ev ∈ t, ∃ c r, ev = Event.call c r) :
    vg_frees t = [] := by
  induction t with
  | nil => rfl
  | cons ev t ih =>
    obtain ⟨c, r, rfl⟩ := h ev (List.mem_cons_self _ _)
    simp only [vg_frees]
    exact ih (fun x hx => h x (List.mem_cons_of_mem _ hx))

theorem create_storage_loop_frees {σ : Type} (B : Backend σ) (disks : List String) (s : σ) :
    vg_frees (create_storage_loop B disks s).trace = [] := by
  apply vg_frees_of_calls
  intro ev hev
  obtain ⟨d, r, h | h⟩ := create_storage_loop_calls B disks s ev hev
  · exact ⟨_, _, h⟩
  · exact ⟨_, _, h⟩

/-- A confirmed `create_storage` whose loop returns FALSE is that loop. -/
theorem create_storage_loop_failed {σ : Type} (B : Backend σ) (input : Int)
    (disks : List String) (s : σ) (hc : declined input = false) (e : GError)
    (hl : (create_storage_loop B disks s).result = .error e) :
    create_storage B input disks s =
      ⟨.error e, (create_storage_loop B disks s).state, (create_storage_loop B disks s).trace⟩ := by
  unfold create_storage
  rw [hc]
  show Pipe.bind _ _ s = _
  simp [Pipe.bind, hl]

/-- A confirmed `create_storage` whose loop succeeds goes on with the rest. -/
theorem create_storage_loop_passed {σ : Type} (B : Backend σ) (input : Int)
    (disks : List String) (s : σ) (hc : declined input = false)
    (hl : (create_storage_loop B disks s).result = .ok ()) :
    create_storage B input disks s =
      ⟨(create_storage_rest B disks (create_storage_loop B disks s).state).result,
        (create_storage_rest B disks (create_storage_loop B disks s).state).state,
        (create_storage_loop B disks s).trace ++
          (create_storage_rest B disks (create_storage_loop B disks s).state).trace⟩ := by
  unfold create_storage
  rw [hc]
  show Pipe.bind _ _ s = _
  simp [Pipe.bind, hl]

theorem create_storage_stops {σ : Type} (B : Backend σ) (input : Int)
    (disks : List String) (s : σ) (hc : declined input = false) :
    StopsAtFirstFailure B (create_storage B input disks s).ret
      (create_storage B input disks s).trace
      (create_sequence disks ((vg_frees (create_storage B input disks s).trace).getD 0 0)
        ((vg_frees (create_storage B input disks s).trace).getD 1 0)) := by
  have hloop := create_storage_loop_stops B disks s
  rcases hl : (create_storage_loop B disks s).result with e | u
  · rw [create_storage_loop_failed B input disks s hc e hl]
    have hr : (create_storage_loop B disks s).ret = false := by simp [Run.ret, hl]
    rw [hr] at hloop
    exact stops_fail_append B _ hloop
  · cases u
    rw [create_storage_loop_passed B input disks s hc hl]
    have hr : (create_storage_loop B disks s).ret = true := by simp [Run.ret, hl]
    rw [hr] at hloop
    simp only [vg_frees_append, create_storage_loop_frees, List.nil_append]
    exact stops_append B hloop (create_storage_rest_stops B disks _)

/-! ### cleanup_storage -/

theorem aborts_failed_call {σ : Type} (B : Backend σ) (c : Call) (e : GError)
    (hc : ∀ d a, c ≠ .bd_fs_wipe d a) : (Event.call c (some e)).aborts B = true := by
  cases c <;> first | rfl | exact absurd rfl (hc _ _)

/-- One step `ret = f (...); if (!ret) { g_prefix_error (...); return FALSE; }`
in front of a piece that stops at its first failure. -/
theorem stops_step {σ : Type} (B : Backend σ) (c : Call) (hc : ∀ d a, c ≠ .bd_fs_wipe d a)
    (pre : String) (k : Pipe σ Unit) (sc : List Invocation) (s : σ)
    (hk : ∀ s1, StopsAtFirstFailure B (k s1).ret (k s1).trace sc) :
    StopsAtFirstFailure B ((call B c >>= fun ret => check ret pre >>= fun _ => k) s).ret
      ((call B c >>= fun ret => check ret pre >>= fun _ => k) s).trace (.call c :: sc) := by
  rw [call_bind_run]
  rcases B.run c s with ⟨_ | e, s1⟩
  · exact stops_cons B (.call c none) (by cases c <;> rfl) (hk s1)
  · exact stops_fail B (.call c (some e)) sc (aborts_failed_call B c e hc)

theorem cleanup_storage_loop_stops {σ : Type} (B : Backend σ) (disks : List String) :
    ∀ s : σ, StopsAtFirstFailure B (cleanup_storage_loop B disks s).ret
      (cleanup_storage_loop B disks s).trace
      (disks.map (fun d => Invocation.call (.bd_lvm_pvremove d none))) := by
  induction disks with
  | nil => intro s; exact stops_nil B
  | cons d ds ih =>
    intro s
    exact stops_step B (.bd_lvm_pvremove d none) (by intro _ _ h; cases h) _
      (cleanup_storage_loop B ds) _ s ih

theorem cleanup_storage_stops {σ : Type} (B : Backend σ) (input : Int)
    (disks : List String) (s : σ) (hc : declined input = false) :
    StopsAtFirstFailure B (cleanup_storage B input disks s).ret
      (cleanup_storage B input disks s).trace (cleanup_sequence disks) := by
  have h1 : "/dev/mapper/" ++ LUKSNAME ++ "-" ++ DATANAME = "/dev/mapper/test-luks-data" := by
    decide
  have h2 : VGNAME = "demo_1_libblockdev" := rfl
  have h3 : DATANAME = "data" := rfl
  have h4 : SWAPNAME = "swap" := rfl
  unfold cleanup_storage
  rw [hc]
  simp only [h1, h2, h3, h4, cleanup_sequence, Bool.false_eq_true, if_false, List.cons_append,
    List.nil_append]
  refine stops_step B _ (by intro _ _ h; cases h) _ _ _ s (fun s1 => ?_)
  refine stops_step B _ (by intro _ _ h; cases h) _ _ _ s1 (fun s2 => ?_)
  refine stops_step B _ (by intro _ _ h; cases h) _ _ _ s2 (fun s3 => ?_)
  refine stops_step B _ (by intro _ _ h; cases h) _ _ _ s3 (fun s4 => ?_)
  exact cleanup_storage_loop_stops B disks s4

/-! ### The confirmation gate -/

theorem declined_of_confirmed (input : Int) (h : input = 121 ∨ input = 89) :
    declined input = false := by
  rcases h with rfl | rfl <;> decide

theorem declined_of_other (input : Int) (h1 : -1 ≤ input) (h2 : input ≤ 255)
    (h3 : input ≠ 121) (h4 : input ≠ 89) : declined input = true := by
  have h5 : to_gint8 input ≠ 121 := by unfold to_gint8; omega
  have h6 : to_gint8 input ≠ 89 := by unfold to_gint8; omega
  simp [declined, h5, h6]

theorem aborts_not_succeeded {σ : Type} (B : Backend σ) (ev : Event)
    (h : ev.aborts B = true) : ev.succeeded = false := by
  rcases ev with ⟨c, _ | e⟩ | ⟨n, e | d⟩
  · cases c <;> simp [Event.aborts] at h
  · rfl
  · rfl
  · simp [Event.aborts] at h

/-! ## The claims -/

/-- C1 (fail-fast in both pipelines).  In a confirmed run of `create_storage`
and of `cleanup_storage` against any backend, from any backend state: the
operations performed are a prefix of the pipeline's fixed call sequence; an
operation that fails (other than a wipe failing with the no-filesystem error)
is the last one performed and the pipeline returns FALSE; the pipeline returns
FALSE only when its last operation failed so; and when it returns TRUE the
whole sequence was performed. -/
theorem fail_fast_pipelines {σ : Type} (B : Backend σ) (input : Int) (disks : List String)
    (s : σ) (hc : input = 121 ∨ input = 89) :
    ((create_storage B input disks s).trace.map Event.inv <+:
        create_sequence disks ((vg_frees (create_storage B input disks s).trace).getD 0 0)
          ((vg_frees (create_storage B input disks s).trace).getD 1 0)) ∧
    (∀ pre ev post, (create_storage B input disks s).trace = pre ++ ev :: post →
        ev.aborts B = true → post = [] ∧ (create_storage B input disks s).ret = false) ∧
    ((create_storage B input disks s).ret = false →
        ∃ pre ev, (create_storage B input disks s).trace = pre ++ [ev] ∧ ev.aborts B = true) ∧
    ((create_storage B input disks s).ret = true →
        (create_storage B input disks s).trace.map Event.inv =
          create_sequence disks ((vg_frees (create_storage B input disks s).trace).getD 0 0)
            ((vg_frees (create_storage B input disks s).trace).getD 1 0)) ∧
    ((cleanup_storage B input disks s).trace.map Event.inv <+: cleanup_sequence disks) ∧
    (∀ pre ev post, (cleanup_storage B input disks s).trace = pre ++ ev :: post →
        ev.aborts B = true → post = [] ∧ (cleanup_storage B input disks s).ret = false) ∧
    ((cleanup_storage B input disks s).ret = false →
        ∃ pre ev, (cleanup_storage B input disks s).trace = pre ++ [ev] ∧ ev.aborts B = true) ∧
    ((cleanup_storage B input disks s).ret = true →
        (cleanup_storage B input disks s).trace.map Event.inv = cleanup_sequence disks) := by
  have hd := declined_of_confirmed input hc
  have h1 := create_storage_stops B input disks s hd
  have h2 := cleanup_storage_stops B input disks s hd
  exact ⟨stops_initial_segment h1, fun pre ev post ht hev => stops_nothing_after h1 pre ev post ht hev,
    stops_last h1, fun hr => (stops_full h1 hr).1,
    stops_initial_segment h2, fun pre ev post ht hev => stops_nothing_after h2 pre ev post ht hev,
    stops_last h2, fun hr => (stops_full h2 hr).1⟩

/-- Witness of C1: against the mock backend whose operation number 3 (the
pvcreate on the second disk) fails, the confirmed `create_storage` on two disks
performs a prefix of its call sequence. -/
theorem fail_fast_pipelines_witness :
    ((121 : Int) = 121 ∨ (121 : Int) = 89) ∧
    ((create_storage (mock_backend 3 (fun _ => 0)) 121 ["/dev/sda", "/dev/sdb"] 0).trace.map Event.inv <+:
      create_sequence ["/dev/sda", "/dev/sdb"]
        ((vg_frees (create_storage (mock_backend 3 (fun _ => 0)) 121 ["/dev/sda", "/dev/sdb"] 0).trace).getD
          0 0)
        ((vg_frees (create_storage (mock_backend 3 (fun _ => 0)) 121 ["/dev/sda", "/dev/sdb"] 0).trace).getD
          1 0)) :=
  ⟨Or.inl rfl,
    (fail_fast_pipelines (mock_backend 3 (fun _ => 0)) 121 ["/dev/sda", "/dev/sdb"] 0 (Or.inl rfl)).1⟩

/-- C2 (teardown order).  In a confirmed run of `cleanup_storage` on any disk
list, against any backend: the operations performed are a prefix of
close `/dev/mapper/test-luks-data`, remove LV `data`, remove LV `swap`, remove
the VG `demo_1_libblockdev`, remove the PV format of each disk in the order
given; and when every operation performed succeeded, they are exactly that
sequence and the function returns TRUE. -/
theorem cleanup_order {σ : Type} (B : Backend σ) (input : Int) (disks : List String)
    (s : σ) (hc : input = 121 ∨ input = 89) :
    ((cleanup_storage B input disks s).trace.map Event.inv <+:
      [ Invocation.call (.bd_crypto_luks_close "/dev/mapper/test-luks-data"),
        .call (.bd_lvm_lvremove "demo_1_libblockdev" "data" false none),
        .call (.bd_lvm_lvremove "demo_1_libblockdev" "swap" false none),
        .call (.bd_lvm_vgremove "demo_1_libblockdev" none) ] ++
      disks.map (fun d => Invocation.call (.bd_lvm_pvremove d none))) ∧
    ((∀ ev ∈ (cleanup_storage B input disks s).trace, ev.succeeded = true) →
      (cleanup_storage B input disks s).trace.map Event.inv =
        [ Invocation.call (.bd_crypto_luks_close "/dev/mapper/test-luks-data"),
          .call (.bd_lvm_lvremove "demo_1_libblockdev" "data" false none),
          .call (.bd_lvm_lvremove "demo_1_libblockdev" "swap" false none),
          .call (.bd_lvm_vgremove "demo_1_libblockdev" none) ] ++
        disks.map (fun d => Invocation.call (.bd_lvm_pvremove d none)) ∧
      (cleanup_storage B input disks s).ret = true) := by
  have h := cleanup_storage_stops B input disks s (declined_of_confirmed input hc)
  refine ⟨stops_initial_segment h, fun hall => ?_⟩
  rcases hr : (cleanup_storage B input disks s).ret
  · obtain ⟨pre, ev, ht, hev⟩ := stops_last h hr
    have h1 := hall ev (by rw [ht]; simp)
    rw [aborts_not_succeeded B ev hev] at h1
    cases h1
  · exact ⟨(stops_full h hr).1, rfl⟩

/-- Witness of C2: the confirmed `cleanup_storage` on two disks against the
mock backend that never fails. -/
theorem cleanup_order_witness :
    ((89 : Int) = 121 ∨ (89 : Int) = 89) ∧
    (cleanup_storage (mock_backend 100 (fun _ => 0)) 89 ["/dev/sda", "/dev/sdb"] 0).trace.map Event.inv =
      [ Invocation.call (.bd_crypto_luks_close "/dev/mapper/test-luks-data"),
        .call (.bd_lvm_lvremove "demo_1_libblockdev" "data" false none),
        .call (.bd_lvm_lvremove "demo_1_libblockdev" "swap" false none),
        .call (.bd_lvm_vgremove "demo_1_libblockdev" none),
        .call (.bd_lvm_pvremove "/dev/sda" none),
        .call (.bd_lvm_pvremove "/dev/sdb" none) ] :=
  ⟨Or.inr rfl,
    ((cleanup_order (mock_backend 100 (fun _ => 0)) 89 ["/dev/sda", "/dev/sdb"] 0 (Or.inr rfl)).2
      (by decide)).1⟩

/-- C7 (declining is a successful no-op).  When `getchar` returns anything but
`'y'` (121) or `'Y'` (89), that is EOF (-1) or another byte, `create_storage`
and `cleanup_storage` return TRUE, leave `*error` unset, perform no backend
operation and leave the backend state as it was. -/
theorem declined_is_noop {σ : Type} (B : Backend σ) (input : Int) (disks : List String)
    (s : σ) (h1 : -1 ≤ input) (h2 : input ≤ 255) (h3 : input ≠ 121) (h4 : input ≠ 89) :
    ((create_storage B input disks s).ret = true ∧
      (create_storage B input disks s).error = none ∧
      (create_storage B input disks s).trace = [] ∧
      (create_storage B input disks s).state = s) ∧
    ((cleanup_storage B input disks s).ret = true ∧
      (cleanup_storage B input disks s).error = none ∧
      (cleanup_storage B input disks s).trace = [] ∧
      (cleanup_storage B input disks s).state = s) := by
  have hd := declined_of_other input h1 h2 h3 h4
  have e1 : create_storage B input disks s = ⟨.ok (), s, []⟩ := by
    unfold create_storage; rw [hd]; rfl
  have e2 : cleanup_storage B input disks s = ⟨.ok (), s, []⟩ := by
    unfold cleanup_storage; rw [hd]; rfl
  rw [e1, e2]
  exact ⟨⟨rfl, rfl, rfl, rfl⟩, ⟨rfl, rfl, rfl, rfl⟩⟩

/-- Witness of C7: the answer `'n'` (110) against the mock backend. -/
theorem declined_is_noop_witness :
    ((-1 : Int) ≤ 110 ∧ (110 : Int) ≤ 255 ∧ (110 : Int) ≠ 121 ∧ (110 : Int) ≠ 89) ∧
    (create_storage (mock_backend 0 (fun _ => 0)) 110 ["/dev/sda", "/dev/sdb"] 0).trace = [] ∧
    (cleanup_storage (mock_backend 0 (fun _ => 0)) 110 ["/dev/sda", "/dev/sdb"] 0).trace = [] :=
  ⟨by decide,
    (declined_is_noop (mock_backend 0 (fun _ => 0)) 110 ["/dev/sda", "/dev/sdb"] 0 (by decide) (by decide)
      (by decide) (by decide)).1.2.2.1,
    (declined_is_noop (mock_backend 0 (fun _ => 0)) 110 ["/dev/sda", "/dev/sdb"] 0 (by decide) (by decide)
      (by decide) (by decide)).2.2.2.1⟩

/-! ### Sizes of the logical volumes -/

/-- No event of the loop of `create_storage` is an lvcreate or a volume-group
query. -/
theorem create_storage_loop_no_lv {σ : Type} (B : Backend σ) (disks : List String) (s : σ)
    (ev : Event) (hev : ev ∈ (create_storage_loop B disks s).trace) :
    (∀ vg lv size ty pvl ex r, ev ≠ .call (.bd_lvm_lvcreate vg lv size ty pvl ex) r) ∧
    (∀ n x, ev ≠ .vginfo n x) := by
  obtain ⟨d, r, h | h⟩ := create_storage_loop_calls B disks s ev hev <;>
    · subst h
      exact ⟨fun _ _ _ _ _ _ _ h => (by cases h), fun _ _ h => (by cases h)⟩

/-- The trace of a confirmed `create_storage`: the trace of the loop, followed,
when the loop succeeded, by the trace of the rest. -/
theorem create_storage_trace {σ : Type} (B : Backend σ) (input : Int)
    (disks : List String) (s : σ) (hc : declined input = false) :
    (create_storage B input disks s).trace = (create_storage_loop B disks s).trace ∨
    (create_storage B input disks s).trace = (create_storage_loop B disks s).trace ++
      (create_storage_rest B disks (create_storage_loop B disks s).state).trace := by
  rcases hl : (create_storage_loop B disks s).result with e | u
  · rw [create_storage_loop_failed B input disks s hc e hl]
    exact Or.inl rfl
  · cases u
    rw [create_storage_loop_passed B input disks s hc hl]
    exact Or.inr rfl

theorem swap_lvcreate_shape {σ : Type} (B : Backend σ) (input : Int) (disks : List String)
    (s : σ) (hc : declined input = false) (vg : String) (size : Nat) (ty : String)
    (pvl : Option (List String)) (ex : Option (List BDExtraArg)) (r : Option GError)
    (hmem : Event.call (.bd_lvm_lvcreate vg "swap" size ty pvl ex) r ∈
      (create_storage B input disks s).trace) :
    ∃ pre d post, (create_storage B input disks s).trace =
        pre ++ Event.vginfo "demo_1_libblockdev" (.ok d) ::
          Event.call (.bd_lvm_lvcreate "demo_1_libblockdev" "swap" size "linear" none none) r ::
          post ∧
      (∀ ev ∈ pre, ∀ n x, ev ≠ .vginfo n x) ∧
      size = min 1073741824 (d.free / 10) := by
  have hL := create_storage_loop_no_lv B disks s
  rcases create_storage_trace B input disks s hc with ht | ht
  · rw [ht] at hmem
    exact absurd rfl ((hL _ hmem).1 _ _ _ _ _ _ _)
  · rw [ht] at hmem ⊢
    rcases List.mem_append.mp hmem with hmem | hmem
    · exact absurd rfl ((hL _ hmem).1 _ _ _ _ _ _ _)
    · obtain ⟨d1, d2, s1, -, -, h⟩ :=
        create_storage_rest_cases B disks (create_storage_loop B disks s).state
      have hpre : ∀ ev ∈ (create_storage_loop B disks s).trace ++
          [Event.call (.bd_lvm_vgcreate VGNAME disks (MIB 8) none) none],
          ∀ n x, ev ≠ .vginfo n x := by
        intro ev hev
        rcases List.mem_append.mp hev with hev | hev
        · exact (hL ev hev).2
        · rw [List.mem_singleton.mp hev]; intro _ _ h; cases h
      refine ⟨(create_storage_loop B disks s).trace ++
          [Event.call (.bd_lvm_vgcreate VGNAME disks (MIB 8) none) none], d1,
        (create_storage_rest B disks (create_storage_loop B disks s).state).trace.drop 3,
        ?_, hpre, ?_⟩
      · rcases h with h | ⟨k, e, pre, hk, h⟩
        · rw [h] at hmem ⊢
          simp [create_rest_events, VGNAME, SWAPNAME, DATANAME] at hmem ⊢
          simp [hmem]
        · rw [h] at hmem ⊢
          interval_cases k <;>
            simp [create_rest_events, VGNAME, SWAPNAME, DATANAME, Event.failed, Event.inv]
              at hmem ⊢ <;> simp [hmem]
      · rcases h with h | ⟨k, e, pre, hk, h⟩
        · rw [h] at hmem
          simp [create_rest_events, VGNAME, SWAPNAME, DATANAME] at hmem
          rw [hmem.1.2.1, swap_size_eq]
        · rw [h] at hmem
          interval_cases k <;>
            simp [create_rest_events, VGNAME, SWAPNAME, DATANAME, Event.failed, Event.inv]
              at hmem <;> rw [hmem.1.2.1, swap_size_eq]

theorem data_lvcreate_shape {σ : Type} (B : Backend σ) (input : Int) (disks : List String)
    (s : σ) (hc : declined input = false) (vg : String) (size : Nat) (ty : String)
    (pvl : Option (List String)) (ex : Option (List BDExtraArg)) (r : Option GError)
    (hmem : Event.call (.bd_lvm_lvcreate vg "data" size ty pvl ex) r ∈
      (create_storage B input disks s).trace) :
    ∃ pre d1 d2 post, (create_storage B input disks s).trace =
        pre ++ Event.vginfo "demo_1_libblockdev" (.ok d1) ::
          Event.call (.bd_lvm_lvcreate "demo_1_libblockdev" "swap"
            (min 1073741824 (d1.free / 10)) "linear" none none) none ::
          Event.call (.bd_swap_mkswap "/dev/demo_1_libblockdev/swap" "demoswap" none) none ::
          Event.vginfo "demo_1_libblockdev" (.ok d2) ::
          Event.call (.bd_lvm_lvcreate "demo_1_libblockdev" "data" size "linear" none none) r ::
          post ∧
      (∀ ev ∈ pre, ∀ n x, ev ≠ .vginfo n x) ∧
      (∀ ev ∈ post, ∀ n x, ev ≠ .vginfo n x) ∧
      size = d2.free := by
  have hL := create_storage_loop_no_lv B disks s
  have hp : "/dev/" ++ VGNAME ++ "/" ++ SWAPNAME = "/dev/demo_1_libblockdev/swap" := by decide
  rcases create_storage_trace B input disks s hc with ht | ht
  · rw [ht] at hmem
    exact absurd rfl ((hL _ hmem).1 _ _ _ _ _ _ _)
  · rw [ht] at hmem ⊢
    rcases List.mem_append.mp hmem with hmem | hmem
    · exact absurd rfl ((hL _ hmem).1 _ _ _ _ _ _ _)
    · obtain ⟨d1, d2, s1, -, -, h⟩ :=
        create_storage_rest_cases B disks (create_storage_loop B disks s).state
      have hpre : ∀ ev ∈ (create_storage_loop B disks s).trace ++
          [Event.call (.bd_lvm_vgcreate VGNAME disks (MIB 8) none) none],
          ∀ n x, ev ≠ .vginfo n x := by
        intro ev hev
        rcases List.mem_append.mp hev with hev | hev
        · exact (hL ev hev).2
        · rw [List.mem_singleton.mp hev]; intro _ _ h; cases h
      refine ⟨(create_storage_loop B disks s).trace ++
          [Event.call (.bd_lvm_vgcreate VGNAME disks (MIB 8) none) none], d1, d2,
        (create_storage_rest B disks (create_storage_loop B disks s).state).trace.drop 6,
        ?_, hpre, ?_, ?_⟩
      · rcases h with h | ⟨k, e, pre, hk, h⟩
        · rw [h] at hmem ⊢
          simp [create_rest_events, VGNAME, SWAPNAME, DATANAME] at hmem ⊢
          simp [hmem, swap_size_eq, SWAPLABEL]
        · rw [h] at hmem ⊢
          interval_cases k <;>
            simp [create_rest_events, VGNAME, SWAPNAME, DATANAME, Event.failed, Event.inv]
              at hmem ⊢ <;> simp [hmem, swap_size_eq, SWAPLABEL]
      · rcases h with h | ⟨k, e, pre, hk, h⟩
        · rw [h]
          simp [create_rest_events]
        · rw [h]
          interval_cases k <;> simp [create_rest_events, Event.failed, Event.inv]
      · rcases h with h | ⟨k, e, pre, hk, h⟩
        · rw [h] at hmem
          simp [create_rest_events, VGNAME, SWAPNAME, DATANAME] at hmem
          exact hmem.1.2.1
        · rw [h] at hmem
          interval_cases k <;>
            simp [create_rest_events, VGNAME, SWAPNAME, DATANAME, Event.failed, Event.inv]
              at hmem <;> exact hmem.1.2.1

theorem swap_follows_first_query {σ : Type} (B : Backend σ) (input : Int)
    (disks : List String) (s : σ) (hc : declined input = false) (pre : List Event)
    (n : String) (d : BDLVMVGdata) (post : List Event)
    (ht : (create_storage B input disks s).trace = pre ++ Event.vginfo n (.ok d) :: post)
    (hpre : ∀ ev ∈ pre, ∀ m x, ev ≠ Event.vginfo m x) :
    ∃ r post2, post =
      Event.call (.bd_lvm_lvcreate "demo_1_libblockdev" "swap" (min 1073741824 (d.free / 10))
        "linear" none none) r :: post2 := by
  have hL := create_storage_loop_no_lv B disks s
  have hT : ∀ (a1 : List Event),
      (create_storage_rest B disks (create_storage_loop B disks s).state).trace =
        a1 ++ Event.vginfo n (.ok d) :: post →
      (∀ ev ∈ a1, ∀ m x, ev ≠ Event.vginfo m x) →
      ∃ r post2, post =
        Event.call (.bd_lvm_lvcreate "demo_1_libblockdev" "swap"
          (min 1073741824 (d.free / 10)) "linear" none none) r :: post2 := by
    intro a1 h2 ha1
    obtain ⟨d1, d2, s1, -, -, h⟩ :=
      create_storage_rest_cases B disks (create_storage_loop B disks s).state
    rcases a1 with _ | ⟨x, _ | ⟨y, a2⟩⟩
    · rcases h with h | ⟨k, e, p, hk, h⟩
      · rw [h] at h2; simp [create_rest_events] at h2
      · rw [h] at h2
        interval_cases k <;> simp [create_rest_events, Event.failed, Event.inv] at h2
    · rcases h with h | ⟨k, e, p, hk, h⟩
      · rw [h] at h2
        simp [create_rest_events, VGNAME, SWAPNAME] at h2
        obtain ⟨-, ⟨-, rfl⟩, rfl⟩ := h2
        exact ⟨_, _, by rw [swap_size_eq]⟩
      · rw [h] at h2
        interval_cases k <;>
          simp [create_rest_events, Event.failed, Event.inv, VGNAME, SWAPNAME] at h2 <;>
          · obtain ⟨-, ⟨-, rfl⟩, rfl⟩ := h2
            exact ⟨_, _, by rw [swap_size_eq]⟩
    · exfalso
      have hy := ha1 y (by simp)
      rcases h with h | ⟨k, e, p, hk, h⟩
      · rw [h] at h2
        simp [create_rest_events] at h2
        exact hy _ _ h2.2.1.symm
      · rw [h] at h2
        interval_cases k <;>
          simp [create_rest_events, Event.failed, Event.inv] at h2 <;>
          exact hy _ _ h2.2.1.symm
  rcases create_storage_trace B input disks s hc with ht2 | ht2
  · rw [ht2] at ht
    exact absurd rfl ((hL (Event.vginfo n (.ok d)) (by rw [ht]; simp)).2 n (.ok d))
  · rw [ht2] at ht
    rcases List.append_eq_append_iff.mp ht with ⟨a1, h1, h2⟩ | ⟨c1, h1, h2⟩
    · exact hT a1 h2 (fun ev hev => hpre ev (by rw [h1]; simp [hev]))
    · rcases c1 with _ | ⟨x, c1⟩
      · simp only [List.nil_append] at h2
        exact hT [] (by simpa using h2.symm) (by simp)
      · simp only [List.cons_append, List.cons.injEq] at h2
        obtain ⟨rfl, -⟩ := h2
        exact absurd rfl ((hL (Event.vginfo n (.ok d)) (by rw [h1]; simp)).2 n (.ok d))

/-- C4 (swap LV size).  The size `create_storage` computes from a free-space
value `f` is `min (2^30) (f / 10)` with integer division, so at most 1 GiB and
at most a tenth of `f` (for every natural `f`, so for every 64-bit value).  In a
confirmed run against any backend, when the first volume-group query reports
the data `d`, the next operation is the creation of the LV `swap` with the size
`min (2^30) (d.free / 10)`; and every creation of the LV `swap` in the run is
that one.  For `f` = 2 GiB the size is 214748364, for `f` = 20 GiB it is
1073741824. -/
theorem swap_lv_size {σ : Type} (B : Backend σ) (input : Int) (disks : List String)
    (s : σ) (hc : input = 121 ∨ input = 89) :
    (∀ f : Nat, swap_size f = min (2 ^ 30) (f / 10) ∧ swap_size f ≤ 2 ^ 30 ∧
      swap_size f ≤ f / 10 ∧ 10 * swap_size f ≤ f) ∧
    (∀ pre n d post,
      (create_storage B input disks s).trace = pre ++ Event.vginfo n (.ok d) :: post →
      (∀ ev ∈ pre, ∀ m x, ev ≠ Event.vginfo m x) →
      ∃ r post2, post =
        Event.call (.bd_lvm_lvcreate "demo_1_libblockdev" "swap" (min (2 ^ 30) (d.free / 10))
          "linear" none none) r :: post2) ∧
    (∀ vg size ty pvl ex r,
      Event.call (.bd_lvm_lvcreate vg "swap" size ty pvl ex) r ∈
        (create_storage B input disks s).trace →
      ∃ pre d post, (create_storage B input disks s).trace =
          pre ++ Event.vginfo "demo_1_libblockdev" (.ok d) ::
            Event.call (.bd_lvm_lvcreate "demo_1_libblockdev" "swap" size "linear" none none) r ::
            post ∧
        (∀ ev ∈ pre, ∀ n x, ev ≠ .vginfo n x) ∧
        size = min (2 ^ 30) (d.free / 10)) ∧
    swap_size 2147483648 = 214748364 ∧
    swap_size 21474836480 = 1073741824 := by
  have h2 : (2 : Nat) ^ 30 = 1073741824 := by norm_num
  have hd := declined_of_confirmed input hc
  refine ⟨fun f => ?_, fun pre n d post ht hpre => ?_, fun vg size ty pvl ex r hmem => ?_,
    by decide, by decide⟩
  · have h := swap_size_eq f
    rw [h2, h]
    refine ⟨rfl, Nat.min_le_left _ _, Nat.min_le_right _ _, ?_⟩
    have := Nat.min_le_right 1073741824 (f / 10)
    omega
  · rw [h2]
    exact swap_follows_first_query B input disks s hd pre n d post ht hpre
  · rw [h2]
    exact swap_lvcreate_shape B input disks s hd vg size ty pvl ex r hmem

/-- Witness of C4: against the mock backend that never fails and reports
2 GiB free, the swap LV is created with 214748364 bytes. -/
theorem swap_lv_size_witness :
    ((121 : Int) = 121 ∨ (121 : Int) = 89) ∧
    Event.call (.bd_lvm_lvcreate "demo_1_libblockdev" "swap" 214748364 "linear" none none) none ∈
      (create_storage (mock_backend 100 (fun _ => 2147483648)) 121 ["/dev/sda", "/dev/sdb"] 0).trace ∧
    swap_size 21474836480 = 1073741824 :=
  ⟨Or.inl rfl, by decide,
    (swap_lv_size (mock_backend 100 (fun _ => 2147483648)) 121 ["/dev/sda", "/dev/sdb"] 0
      (Or.inl rfl)).2.2.2.2⟩

/-- C5 (the data LV never uses a stale free-space value).  In a confirmed run
of `create_storage` against any backend, whenever the LV `data` is created the
trace is: calls without any volume-group query, the first query (data `d1`),
the creation of the swap LV, its mkswap, the second query (data `d2`), the
creation of the data LV with size `d2.free`, then calls without any
volume-group query.  So the volume group is queried exactly twice, and the size
of the data LV is the free space of the second query whatever the first said. -/
theorem data_lv_size {σ : Type} (B : Backend σ) (input : Int) (disks : List String)
    (s : σ) (hc : input = 121 ∨ input = 89) (vg : String) (size : Nat) (ty : String)
    (pvl : Option (List String)) (ex : Option (List BDExtraArg)) (r : Option GError)
    (hmem : Event.call (.bd_lvm_lvcreate vg "data" size ty pvl ex) r ∈
      (create_storage B input disks s).trace) :
    ∃ pre d1 d2 post, (create_storage B input disks s).trace =
        pre ++ Event.vginfo "demo_1_libblockdev" (.ok d1) ::
          Event.call (.bd_lvm_lvcreate "demo_1_libblockdev" "swap"
            (min 1073741824 (d1.free / 10)) "linear" none none) none ::
          Event.call (.bd_swap_mkswap "/dev/demo_1_libblockdev/swap" "demoswap" none) none ::
          Event.vginfo "demo_1_libblockdev" (.ok d2) ::
          Event.call (.bd_lvm_lvcreate "demo_1_libblockdev" "data" size "linear" none none) r ::
          post ∧
      (∀ ev ∈ pre, ∀ n x, ev ≠ .vginfo n x) ∧
      (∀ ev ∈ post, ∀ n x, ev ≠ .vginfo n x) ∧
      size = d2.free :=
  data_lvcreate_shape B input disks s (declined_of_confirmed input hc) vg size ty pvl ex r hmem

/-- Witness of C5: a mock backend that never fails, reports 2147483648 free
bytes at the first query (operation 5) and 1932735284 afterwards: the data LV is
created with 1932735284 bytes. -/
theorem data_lv_size_witness :
    ((121 : Int) = 121 ∨ (121 : Int) = 89) ∧
    Event.call (.bd_lvm_lvcreate "demo_1_libblockdev" "data" 1932735284 "linear" none none)
        none ∈
      (create_storage (mock_backend 100 (fun n => if n = 5 then 2147483648 else 1932735284))
        121 ["/dev/sda", "/dev/sdb"] 0).trace ∧
    ∃ pre d1 d2 post,
      (create_storage (mock_backend 100 (fun n => if n = 5 then 2147483648 else 1932735284))
          121 ["/dev/sda", "/dev/sdb"] 0).trace =
        pre ++ Event.vginfo "demo_1_libblockdev" (.ok d1) ::
          Event.call (.bd_lvm_lvcreate "demo_1_libblockdev" "swap"
            (min 1073741824 (d1.free / 10)) "linear" none none) none ::
          Event.call (.bd_swap_mkswap "/dev/demo_1_libblockdev/swap" "demoswap" none) none ::
          Event.vginfo "demo_1_libblockdev" (.ok d2) ::
          Event.call (.bd_lvm_lvcreate "demo_1_libblockdev" "data" 1932735284 "linear" none
            none) none ::
          post ∧
      (∀ ev ∈ pre, ∀ n x, ev ≠ .vginfo n x) ∧
      (∀ ev ∈ post, ∀ n x, ev ≠ .vginfo n x) ∧
      1932735284 = d2.free :=
  ⟨Or.inl rfl, by decide,
    data_lv_size (mock_backend 100 (fun n => if n = 5 then 2147483648 else 1932735284))
      121 ["/dev/sda", "/dev/sdb"] 0 (Or.inl rfl) "demo_1_libblockdev" 1932735284 "linear"
      none none none (by decide)⟩

/-! ### The benign wipe outcome -/

theorem create_storage_loop_wipe {σ : Type} (B : Backend σ) (disks : List String) :
    ∀ (s : σ) (pre : List Event) (d : String) (a : Bool) (e : GError) (post : List Event),
      (create_storage_loop B disks s).trace = pre ++ Event.call (.bd_fs_wipe d a) (some e) :: post →
      (g_error_matches (some e) B.BD_FS_ERROR B.BD_FS_ERROR_NOFS = true →
        ∃ r post2, post = Event.call (.bd_lvm_pvcreate d 0 0 none) r :: post2) ∧
      (g_error_matches (some e) B.BD_FS_ERROR B.BD_FS_ERROR_NOFS = false →
        post = [] ∧ (create_storage_loop B disks s).result =
          .error (g_prefix_error e ("Error when wiping " ++ d ++ ": "))) := by
  induction disks with
  | nil =>
    intro s pre d a e post ht
    rw [create_storage_loop_nil] at ht
    simp at ht
  | cons d0 ds ih =>
    intro s pre d a e post ht
    rcases create_storage_loop_cases B d0 s with ⟨e0, hw, hm⟩ | ⟨hw, e0, hp⟩ | ⟨hw, hp⟩
    · rw [create_storage_loop_wipe_fails B d0 ds s e0 hw hm] at ht ⊢
      rcases pre with _ | ⟨p, pre⟩
      · simp only [List.nil_append, List.cons.injEq, Event.call.injEq, Call.bd_fs_wipe.injEq,
          Option.some.injEq] at ht
        obtain ⟨⟨⟨rfl, rfl⟩, rfl⟩, rfl⟩ := ht
        exact ⟨fun h => (by rw [hm] at h; cases h), fun _ => ⟨rfl, rfl⟩⟩
      · simp at ht
    · rw [create_storage_loop_pvcreate_fails B d0 ds s e0 hw hp] at ht ⊢
      rcases pre with _ | ⟨p, pre⟩
      · simp only [List.nil_append, List.cons.injEq, Event.call.injEq, Call.bd_fs_wipe.injEq]
          at ht
        obtain ⟨⟨⟨rfl, rfl⟩, hr⟩, rfl⟩ := ht
        rw [hr] at hw
        have hm : g_error_matches (some e) B.BD_FS_ERROR B.BD_FS_ERROR_NOFS = true := by
          simpa [Event.aborts] using hw
        exact ⟨fun _ => ⟨_, _, rfl⟩, fun h => by rw [hm] at h; cases h⟩
      · rcases pre with _ | ⟨p2, pre⟩
        · simp at ht
        · simp at ht
    · rw [create_storage_loop_continues B d0 ds s hw hp] at ht ⊢
      simp only [Run.cons] at ht ⊢
      rcases pre with _ | ⟨p, pre⟩
      · simp only [List.nil_append, List.cons.injEq, Event.call.injEq, Call.bd_fs_wipe.injEq]
          at ht
        obtain ⟨⟨⟨rfl, rfl⟩, hr⟩, rfl⟩ := ht
        rw [hr] at hw
        have hm : g_error_matches (some e) B.BD_FS_ERROR B.BD_FS_ERROR_NOFS = true := by
          simpa [Event.aborts] using hw
        exact ⟨fun _ => ⟨_, _, rfl⟩, fun h => by rw [hm] at h; cases h⟩
      · rcases pre with _ | ⟨p2, pre⟩
        · simp at ht
        · simp only [List.cons_append, List.cons.injEq] at ht
          exact ih _ pre d a e post ht.2.2

/-- No event of the part of `create_storage` after the loop is a wipe. -/
theorem create_storage_rest_no_wipe {σ : Type} (B : Backend σ) (disks : List String) (s : σ)
    (ev : Event) (hev : ev ∈ (create_storage_rest B disks s).trace) :
    ∀ d a r, ev ≠ .call (.bd_fs_wipe d a) r := by
  intro d a r h
  subst h
  have hp := (stops_initial_segment (create_storage_rest_stops B disks s)).subset
    (List.mem_map_of_mem Event.inv hev)
  simp [create_sequence_rest, Event.inv] at hp

theorem create_storage_wipe {σ : Type} (B : Backend σ) (input : Int) (disks : List String)
    (s : σ) (hc : declined input = false) (pre : List Event) (d : String) (a : Bool)
    (e : GError) (post : List Event)
    (ht : (create_storage B input disks s).trace =
      pre ++ Event.call (.bd_fs_wipe d a) (some e) :: post) :
    (g_error_matches (some e) B.BD_FS_ERROR B.BD_FS_ERROR_NOFS = true →
      ∃ r post2, post = Event.call (.bd_lvm_pvcreate d 0 0 none) r :: post2) ∧
    (g_error_matches (some e) B.BD_FS_ERROR B.BD_FS_ERROR_NOFS = false →
      post = [] ∧ (create_storage B input disks s).result =
        .error (g_prefix_error e ("Error when wiping " ++ d ++ ": "))) := by
  rcases hl : (create_storage_loop B disks s).result with e1 | u
  · rw [create_storage_loop_failed B input disks s hc e1 hl] at ht ⊢
    have := create_storage_loop_wipe B disks s pre d a e post ht
    rw [hl] at this
    exact this
  · cases u
    rw [create_storage_loop_passed B input disks s hc hl] at ht ⊢
    rcases List.append_eq_append_iff.mp ht with ⟨a1, rfl, h2⟩ | ⟨c1, h1, h2⟩
    · exact absurd rfl (create_storage_rest_no_wipe B disks _ _ (by rw [h2]; simp) d a (some e))
    · rcases c1 with _ | ⟨x, c1⟩
      · simp only [List.nil_append] at h2
        exact absurd rfl
          (create_storage_rest_no_wipe B disks _ _ (by rw [← h2]; simp) d a (some e))
      · simp only [List.cons_append, List.cons.injEq] at h2
        obtain ⟨rfl, rfl⟩ := h2
        have := create_storage_loop_wipe B disks s pre d a e c1 h1
        refine ⟨fun hm => ?_, fun hm => ?_⟩
        · obtain ⟨r, post2, rfl⟩ := this.1 hm
          exact ⟨r, post2 ++ _, rfl⟩
        · have h3 := (this.2 hm).2
          rw [hl] at h3
          cases h3

theorem wipe_nofs_succeeds_state {σ : Type} (B : Backend σ) (d : String) (a : Bool) (s : σ) :
    ((wipe_nofs_succeeds B).run (.bd_fs_wipe d a) s).2 = (B.run (.bd_fs_wipe d a) s).2 := by
  simp only [wipe_nofs_succeeds]
  split <;> rfl

theorem wipe_nofs_succeeds_abort {σ : Type} (B : Backend σ) (d : String) (a : Bool) (s : σ)
    (e : GError) (hw : (B.run (.bd_fs_wipe d a) s).1 = some e)
    (hm : g_error_matches (some e) B.BD_FS_ERROR B.BD_FS_ERROR_NOFS = false) :
    ((wipe_nofs_succeeds B).run (.bd_fs_wipe d a) s).1 = some e := by
  simp only [wipe_nofs_succeeds, hw, hm]
  simp [hw]

theorem wipe_nofs_succeeds_benign {σ : Type} (B : Backend σ) (d : String) (a : Bool) (s : σ)
    (hw : (Event.call (.bd_fs_wipe d a) (B.run (.bd_fs_wipe d a) s).1).aborts B = false) :
    ((wipe_nofs_succeeds B).run (.bd_fs_wipe d a) s).1 = none := by
  simp only [wipe_nofs_succeeds]
  rcases h : (B.run (.bd_fs_wipe d a) s).1 with _ | e
  · simp [g_error_matches, h]
  · rw [h] at hw
    have hm : g_error_matches (some e) B.BD_FS_ERROR B.BD_FS_ERROR_NOFS = true := by
      simpa [Event.aborts] using hw
    simp [hm]

theorem create_storage_rest_wipe_nofs {σ : Type} (B : Backend σ) (disks : List String) :
    create_storage_rest (wipe_nofs_succeeds B) disks = create_storage_rest B disks := rfl

theorem create_storage_loop_wipe_nofs {σ : Type} (B : Backend σ) (disks : List String) :
    ∀ s : σ, (create_storage_loop B disks s).same
      (create_storage_loop (wipe_nofs_succeeds B) disks s) := by
  induction disks with
  | nil => intro s; exact ⟨rfl, rfl, rfl⟩
  | cons d ds ih =>
    intro s
    have hs := wipe_nofs_succeeds_state B d true s
    have hpv : ∀ s1, (wipe_nofs_succeeds B).run (.bd_lvm_pvcreate d 0 0 none) s1 =
        B.run (.bd_lvm_pvcreate d 0 0 none) s1 := fun _ => rfl
    rcases create_storage_loop_cases B d s with ⟨e, hw, hm⟩ | ⟨hw, e, hp⟩ | ⟨hw, hp⟩
    · rw [create_storage_loop_wipe_fails B d ds s e hw hm,
        create_storage_loop_wipe_fails (wipe_nofs_succeeds B) d ds s e
          (wipe_nofs_succeeds_abort B d true s e hw hm) hm, hs]
      exact ⟨rfl, rfl, rfl⟩
    · have hb := wipe_nofs_succeeds_benign B d true s hw
      rw [create_storage_loop_pvcreate_fails B d ds s e hw hp,
        create_storage_loop_pvcreate_fails (wipe_nofs_succeeds B) d ds s e
          (by rw [hb]; rfl) (by rw [hs, hpv]; exact hp), hs, hpv]
      exact ⟨rfl, rfl, rfl⟩
    · have hb := wipe_nofs_succeeds_benign B d true s hw
      rw [create_storage_loop_continues B d ds s hw hp,
        create_storage_loop_continues (wipe_nofs_succeeds B) d ds s
          (by rw [hb]; rfl) (by rw [hs, hpv]; exact hp), hs, hpv]
      obtain ⟨h1, h2, h3⟩ := ih (B.run (.bd_lvm_pvcreate d 0 0 none)
        (B.run (.bd_fs_wipe d true) s).2).2
      exact ⟨h1, h2, by simp [Run.cons, Event.inv, h3]⟩

theorem create_storage_wipe_nofs {σ : Type} (B : Backend σ) (input : Int)
    (disks : List String) (s : σ) :
    (create_storage B input disks s).same
      (create_storage (wipe_nofs_succeeds B) input disks s) := by
  rcases hd : declined input
  swap
  · have e1 : create_storage B input disks s = ⟨.ok (), s, []⟩ := by
      unfold create_storage; rw [hd]; rfl
    have e2 : create_storage (wipe_nofs_succeeds B) input disks s = ⟨.ok (), s, []⟩ := by
      unfold create_storage; rw [hd]; rfl
    rw [e1, e2]
    exact ⟨rfl, rfl, rfl⟩
  obtain ⟨h1, h2, h3⟩ := create_storage_loop_wipe_nofs B disks s
  rcases hl : (create_storage_loop B disks s).result with e | u
  · rw [create_storage_loop_failed B input disks s hd e hl,
      create_storage_loop_failed (wipe_nofs_succeeds B) input disks s hd e (by rw [← h1, hl])]
    exact ⟨rfl, h2, h3⟩
  · cases u
    rw [create_storage_loop_passed B input disks s hd hl,
      create_storage_loop_passed (wipe_nofs_succeeds B) input disks s hd (by rw [← h1, hl]),
      create_storage_rest_wipe_nofs, ← h2]
    exact ⟨rfl, rfl, by simp [h3]⟩

/-- C6 (benign wipe outcome).  In a confirmed run of `create_storage` against
any backend, for every wipe that failed with an error `e`: if `e` is the
no-filesystem error (`BD_FS_ERROR`, `BD_FS_ERROR_NOFS`) the next operation is
the pvcreate on the same disk, and otherwise the wipe is the last operation and
the function returns FALSE with `e` prefixed by the wiping message.  Moreover
the run has the same result, final backend state and operations as the run
against the backend in which those no-filesystem failures are successes. -/
theorem benign_wipe {σ : Type} (B : Backend σ) (input : Int) (disks : List String)
    (s : σ) (hc : input = 121 ∨ input = 89) :
    (∀ pre d a e post,
      (create_storage B input disks s).trace =
        pre ++ Event.call (.bd_fs_wipe d a) (some e) :: post →
      (g_error_matches (some e) B.BD_FS_ERROR B.BD_FS_ERROR_NOFS = true →
        ∃ r post2, post = Event.call (.bd_lvm_pvcreate d 0 0 none) r :: post2) ∧
      (g_error_matches (some e) B.BD_FS_ERROR B.BD_FS_ERROR_NOFS = false →
        post = [] ∧ (create_storage B input disks s).ret = false ∧
        (create_storage B input disks s).error =
          some (g_prefix_error e ("Error when wiping " ++ d ++ ": ")))) ∧
    (create_storage B input disks s).result =
      (create_storage (wipe_nofs_succeeds B) input disks s).result ∧
    (create_storage B input disks s).state =
      (create_storage (wipe_nofs_succeeds B) input disks s).state ∧
    (create_storage B input disks s).trace.map Event.inv =
      (create_storage (wipe_nofs_succeeds B) input disks s).trace.map Event.inv := by
  refine ⟨fun pre d a e post ht => ?_, create_storage_wipe_nofs B input disks s⟩
  have h := create_storage_wipe B input disks s (declined_of_confirmed input hc) pre d a e post ht
  refine ⟨h.1, fun hm => ?_⟩
  obtain ⟨h1, h2⟩ := h.2 hm
  exact ⟨h1, by simp [Run.ret, h2], by simp [Run.error, h2]⟩

theorem storage_backend_run (c : Call) (st : Storage) :
    storage_backend.run c st =
      match c with
      | .bd_fs_wipe device _ => st.wipe_signatures device
      | .bd_lvm_pvcreate device _ _ _ => st.pv_create device
      | .bd_lvm_vgcreate name pv_list pe_size _ => st.vg_create name pv_list pe_size
      | .bd_lvm_lvcreate vg_name lv_name size _ _ _ => st.lv_create vg_name lv_name size
      | .bd_swap_mkswap device _ _ => st.format_lv device
      | .bd_crypto_luks_format device _ _ _ _ _ => st.format_lv device
      | .bd_crypto_luks_open device name _ _ _ => st.encrypted_open device name
      | .bd_fs_xfs_mkfs device _ => st.filesystem_create device
      | .bd_crypto_luks_close luks_device => st.encrypted_close luks_device
      | .bd_lvm_lvremove vg_name lv_name _ _ => st.lv_remove vg_name lv_name
      | .bd_lvm_vgremove name _ => st.vg_remove name
      | .bd_lvm_pvremove device _ => st.pv_remove device := rfl

theorem storage_backend_vginfo (n : String) (st : Storage) :
    storage_backend.bd_lvm_vginfo n st = st.vg_info n := rfl

theorem storage_backend_nofs :
    storage_backend.BD_FS_ERROR = MODEL_FS_ERROR ∧
    storage_backend.BD_FS_ERROR_NOFS = MODEL_FS_ERROR_NOFS := ⟨rfl, rfl⟩

theorem storage_loop_clean (d0 d1 : String) (st : Storage)
    (hs0 : st.signature d0 = false) (hs1 : st.signature d1 = false) :
    create_storage_loop storage_backend [d0, d1] st =
      ⟨.ok (), { st with pv := Function.update (Function.update st.pv d0 true) d1 true },
        [.call (.bd_fs_wipe d0 true)
           (some ⟨MODEL_FS_ERROR, MODEL_FS_ERROR_NOFS, "no filesystem found"⟩),
         .call (.bd_lvm_pvcreate d0 0 0 none) none,
         .call (.bd_fs_wipe d1 true)
           (some ⟨MODEL_FS_ERROR, MODEL_FS_ERROR_NOFS, "no filesystem found"⟩),
         .call (.bd_lvm_pvcreate d1 0 0 none) none]⟩ := by
  simp [create_storage_loop, call_bind_run, storage_backend_run, storage_backend_nofs,
    Storage.wipe_signatures, Storage.pv_create, hs0, hs1, Run.cons, g_error_matches]

theorem storage_rest_clean (d0 d1 : String) (st : Storage) (hne : d0 ≠ d1)
    (hvg : st.vg "demo_1_libblockdev" = none)
    (hsw : st.lv "/dev/demo_1_libblockdev/swap" = none)
    (hda : st.lv "/dev/demo_1_libblockdev/data" = none)
    (hm : st.mapped "/dev/mapper/test-luks-data" = none) :
    (create_storage_rest storage_backend [d0, d1]
      { st with pv := Function.update (Function.update st.pv d0 true) d1 true }).result = .ok () ∧
    (create_storage_rest storage_backend [d0, d1]
      { st with pv := Function.update (Function.update st.pv d0 true) d1 true }).state =
      provisioned d0 d1 st := by
  have h5 : MIB 8 = 8388608 := by decide
  have h7 : swap_size (st.capacity d0 + st.capacity d1) ≤ st.capacity d0 + st.capacity d1 := by
    rw [swap_size_eq]; omega
  simp [create_storage_rest, call_bind_run, vginfo_bind_run, storage_backend_run,
    storage_backend_vginfo, h5, Run.cons, Storage.vg_create, Storage.vg_info,
    Storage.lv_create, Storage.format_lv,
    Storage.encrypted_open, Storage.filesystem_create, hvg, hsw, hda, hm, hne, hne.symm, h7,
    VGNAME, SWAPNAME, DATANAME, LUKSNAME, provisioned]

theorem storage_cleanup_provisioned (d0 d1 : String) (st : Storage) (hne : d0 ≠ d1)
    (hp0 : st.pv d0 = false) (hp1 : st.pv d1 = false)
    (hvg : st.vg "demo_1_libblockdev" = none)
    (hsw : st.lv "/dev/demo_1_libblockdev/swap" = none)
    (hda : st.lv "/dev/demo_1_libblockdev/data" = none)
    (hm : st.mapped "/dev/mapper/test-luks-data" = none) :
    (cleanup_storage storage_backend 121 [d0, d1] (provisioned d0 d1 st)).result = .ok () ∧
    (cleanup_storage storage_backend 121 [d0, d1] (provisioned d0 d1 st)).state = st := by
  have hd : declined 121 = false := by decide
  simp [cleanup_storage, cleanup_storage_loop, hd, call_bind_run, storage_backend_run, Run.cons,
    Storage.encrypted_close, Storage.lv_remove, Storage.vg_remove, Storage.pv_remove,
    hne, hne.symm, VGNAME, SWAPNAME, DATANAME, LUKSNAME, provisioned]
  obtain ⟨cap, sig, pv, vg, lv, mp⟩ := st
  simp only at hp0 hp1 hvg hsw hda hm
  simp only [Storage.mk.injEq, true_and]
  refine ⟨?_, ?_, ?_, ?_⟩
  · funext x
    by_cases h1 : x = d1
    · subst h1; simp [hp1]
    · by_cases h0 : x = d0
      · subst h0; simp [Function.update, h1, hp0]
      · simp [Function.update, h1, h0]
  · funext x
    by_cases h : x = "demo_1_libblockdev"
    · subst h; simp [hvg]
    · simp [Function.update, h]
  · funext x
    by_cases h : x = "/dev/demo_1_libblockdev/swap"
    · subst h; simp [hsw]
    · by_cases h2 : x = "/dev/demo_1_libblockdev/data"
      · subst h2; simp [Function.update, hda]
      · simp [Function.update, h, h2]
  · funext x
    by_cases h : x = "/dev/mapper/test-luks-data"
    · subst h; simp [hm]
    · simp [Function.update, h]

/-- C3 (deduplication over a whole event stream).  From the initial
`last_perc = -1`, on every finite sequence of events with percentages in
`0 .. 100`, `prog_report` prints per event exactly what the reporter of the
specification prints (a no-message event prints its percentage iff it differs
from that of the most recent no-message event that printed, a message event
prints its message only), and ends in the corresponding state; a message event
leaves `last_perc` as it was, whatever the state and the percentage. -/
theorem prog_report_dedup (evs : List ProgEvent) (h : ∀ e ∈ evs, e.1 ≤ 100) :
    (prog_run last_perc_init evs).2 = (spec_reporter none evs).2 ∧
    (prog_run last_perc_init evs).1 = spec_state (spec_reporter none evs).1 ∧
    (∀ (last : Int) (c : Nat) (m : String),
      prog_report last c (some m) = (last, [Line.message m])) := by
  have h1 := prog_run_refines evs none (by intro c hc; cases hc) h
  have h2 : spec_state none = last_perc_init := rfl
  rw [h2] at h1
  refine ⟨by rw [h1], by rw [h1], ?_⟩
  intro last c m
  simp [prog_report]

/-- Witness of C3: the events (10, none), (10, none), (11, none), (11, "done")
print the percent lines 10 and 11 and the message line "done". -/
theorem prog_report_dedup_witness :
    (∀ e ∈ ([(10, none), (10, none), (11, none), (11, some "done")] : List ProgEvent),
      e.1 ≤ 100) ∧
    (prog_run last_perc_init [(10, none), (10, none), (11, none), (11, some "done")]).2 =
      [[Line.percent 10], [], [Line.percent 11], [Line.message "done"]] :=
  ⟨by decide,
    (prog_report_dedup [(10, none), (10, none), (11, none), (11, some "done")]
      (by decide)).1.trans (by decide)⟩

/-- C10 (the dedup state is a `gint8`, the completion a `guint8`).  From any
value of `last_perc`: for a completion `c` in `0 .. 127`, after a no-message
event carrying `c` the next no-message event carrying `c` prints nothing; for
`c` in `128 .. 255` a no-message event carrying `c` prints its percent line and
stores `c - 256`, and the next no-message event carrying `c` prints the line
again. -/
theorem last_perc_wraps (last : Int) (c : Nat) (hl : -128 ≤ last ∧ last ≤ 127) :
    (c ≤ 127 → (prog_report (prog_report last c none).1 c none).2 = []) ∧
    (128 ≤ c → c ≤ 255 →
      prog_report last c none = ((c : Int) - 256, [Line.percent c]) ∧
      (prog_report (prog_report last c none).1 c none).2 = [Line.percent c]) := by
  constructor
  · intro hc
    have hmod : c % 256 = c := Nat.mod_eq_of_lt (by omega)
    have h8 : to_gint8 (c : Int) = c := to_gint8_of_lt c (by omega)
    by_cases heq : (c : Int) = last
    · simp [prog_report, hmod, heq]
    · simp [prog_report, hmod, heq, h8]
  · intro h1 h2
    have hmod : c % 256 = c := Nat.mod_eq_of_lt (by omega)
    have h8 : to_gint8 (c : Int) = (c : Int) - 256 := by unfold to_gint8; omega
    have hne : (c : Int) ≠ last := by omega
    have hne2 : (c : Int) ≠ (c : Int) - 256 := by omega
    simp [prog_report, hmod, hne, h8, if_neg hne2]

/-- Witness of C10: from the initial state, the completion 42 is printed once
and 200 is printed twice. -/
theorem last_perc_wraps_witness :
    ((-128 : Int) ≤ -1 ∧ (-1 : Int) ≤ 127) ∧
    (prog_report (prog_report (-1) 42 none).1 42 none).2 = [] ∧
    (prog_report (-1) 200 none = (((200 : Nat) : Int) - 256, [Line.percent 200]) ∧
      (prog_report (prog_report (-1) 200 none).1 200 none).2 = [Line.percent 200]) :=
  ⟨by decide, (last_perc_wraps (-1) 42 (by decide)).1 (by decide),
    (last_perc_wraps (-1) 200 (by decide)).2 (by decide) (by decide)⟩

/-- Witness of C6: on the model backend with nothing on the disks the wipe of
`/dev/sda` fails with the no-filesystem error and the pvcreate on `/dev/sda`
follows. -/
theorem benign_wipe_witness :
    ((121 : Int) = 121 ∨ (121 : Int) = 89) ∧
    ∃ r post2,
      (create_storage storage_backend 121 ["/dev/sda", "/dev/sdb"] storage_empty).trace.tail =
        Event.call (.bd_lvm_pvcreate "/dev/sda" 0 0 none) r :: post2 :=
  ⟨Or.inl rfl,
    ((benign_wipe storage_backend 121 ["/dev/sda", "/dev/sdb"] storage_empty (Or.inl rfl)).1 []
      "/dev/sda" true ⟨MODEL_FS_ERROR, MODEL_FS_ERROR_NOFS, "no filesystem found"⟩
      (create_storage storage_backend 121 ["/dev/sda", "/dev/sdb"] storage_empty).trace.tail
      (by decide)).1 (by decide)⟩

/-- C8, as stated, fails: provisioning `/dev/sda` and `/dev/sdb` from the model
state in which `/dev/sda` carries a signature and tearing down again returns
TRUE twice, but the signature is gone: the final state is not the initial one. -/
theorem round_trip_counterexample :
    (create_storage storage_backend 121 ["/dev/sda", "/dev/sdb"] storage_with_signature).ret
      = true ∧
    (cleanup_storage storage_backend 121 ["/dev/sda", "/dev/sdb"]
      (create_storage storage_backend 121 ["/dev/sda", "/dev/sdb"]
        storage_with_signature).state).ret = true ∧
    (cleanup_storage storage_backend 121 ["/dev/sda", "/dev/sdb"]
      (create_storage storage_backend 121 ["/dev/sda", "/dev/sdb"]
        storage_with_signature).state).state ≠ storage_with_signature := by
  refine ⟨by decide, by decide, fun h => ?_⟩
  have h2 := congrArg (fun st => st.signature "/dev/sda") h
  revert h2
  decide

/-- C8, amended.  On the model of the backend, for two distinct disks that
carry no signature and are no physical volumes, from a state without the volume
group `demo_1_libblockdev`, its logical volumes `swap` and `data` and the
mapping `test-luks-data`: a confirmed `create_storage` followed by a confirmed
`cleanup_storage` both return TRUE and the backend is in the state it had
before. -/
theorem round_trip_clean (d0 d1 : String) (st : Storage) (input1 input2 : Int)
    (hc1 : input1 = 121 ∨ input1 = 89) (hc2 : input2 = 121 ∨ input2 = 89) (hne : d0 ≠ d1)
    (hs0 : st.signature d0 = false) (hs1 : st.signature d1 = false)
    (hp0 : st.pv d0 = false) (hp1 : st.pv d1 = false)
    (hvg : st.vg "demo_1_libblockdev" = none)
    (hsw : st.lv "/dev/demo_1_libblockdev/swap" = none)
    (hda : st.lv "/dev/demo_1_libblockdev/data" = none)
    (hm : st.mapped "/dev/mapper/test-luks-data" = none) :
    (create_storage storage_backend input1 [d0, d1] st).ret = true ∧
    (cleanup_storage storage_backend input2 [d0, d1]
      (create_storage storage_backend input1 [d0, d1] st).state).ret = true ∧
    (cleanup_storage storage_backend input2 [d0, d1]
      (create_storage storage_backend input1 [d0, d1] st).state).state = st := by
  have hl := storage_loop_clean d0 d1 st hs0 hs1
  have hr := storage_rest_clean d0 d1 st hne hvg hsw hda hm
  have hcr := create_storage_loop_passed storage_backend input1 [d0, d1] st
    (declined_of_confirmed input1 hc1) (by rw [hl])
  rw [hl] at hcr
  have hstate : (create_storage storage_backend input1 [d0, d1] st).state = provisioned d0 d1 st := by
    rw [hcr]; exact hr.2
  have hret : (create_storage storage_backend input1 [d0, d1] st).ret = true := by
    rw [hcr]; simp [Run.ret, hr.1]
  have hcl : cleanup_storage storage_backend input2 [d0, d1] (provisioned d0 d1 st) =
      cleanup_storage storage_backend 121 [d0, d1] (provisioned d0 d1 st) := by
    unfold cleanup_storage
    rw [declined_of_confirmed input2 hc2, declined_of_confirmed 121 (Or.inl rfl)]
  have hc := storage_cleanup_provisioned d0 d1 st hne hp0 hp1 hvg hsw hda hm
  rw [hstate, hcl]
  exact ⟨hret, by simp [Run.ret, hc.1], hc.2⟩

/-- Witness of the amended C8: `/dev/sda` and `/dev/sdb` on the empty model
state. -/
theorem round_trip_clean_witness :
    (((121 : Int) = 121 ∨ (121 : Int) = 89) ∧ ((89 : Int) = 121 ∨ (89 : Int) = 89) ∧
      "/dev/sda" ≠ "/dev/sdb" ∧
      storage_empty.signature "/dev/sda" = false ∧ storage_empty.signature "/dev/sdb" = false ∧
      storage_empty.pv "/dev/sda" = false ∧ storage_empty.pv "/dev/sdb" = false ∧
      storage_empty.vg "demo_1_libblockdev" = none ∧
      storage_empty.lv "/dev/demo_1_libblockdev/swap" = none ∧
      storage_empty.lv "/dev/demo_1_libblockdev/data" = none ∧
      storage_empty.mapped "/dev/mapper/test-luks-data" = none) ∧
    (cleanup_storage storage_backend 89 ["/dev/sda", "/dev/sdb"]
      (create_storage storage_backend 121 ["/dev/sda", "/dev/sdb"] storage_empty).state).state
      = storage_empty :=
  ⟨⟨Or.inl rfl, Or.inr rfl, by decide, rfl, rfl, rfl, rfl, rfl, rfl, rfl, rfl⟩,
    (round_trip_clean "/dev/sda" "/dev/sdb" storage_empty 121 89 (Or.inl rfl) (Or.inr rfl)
      (by decide) rfl rfl rfl rfl rfl rfl rfl rfl).2.2⟩

/-- C9 fails on the code: run as root on one device path, `main` of
demo-1-progress.c exits with `EXIT_SUCCESS` whatever libblockdev does, also
when `fsck_blockdev` returned 1 because `bd_ensure_init` failed (the check is
then not even called), and when `bd_fs_ext4_check` set an error.  The other
failures do give `EXIT_FAILURE`: another user, no device path, two device
paths, an option. -/
theorem progress_main_exit_status :
    (∀ w : CheckBackend, progress_main ["demo-1-progress", "/dev/sda1"] 0 w = EXIT_SUCCESS) ∧
    (fsck_blockdev check_backend_init_fails "/dev/sda1").ret = 1 ∧
    (fsck_blockdev check_backend_init_fails "/dev/sda1").check_called = false ∧
    progress_main ["demo-1-progress", "/dev/sda1"] 0 check_backend_init_fails = 0 ∧
    (fsck_blockdev check_backend_check_fails "/dev/sda1").check_error =
      some ⟨1, 2, "e2fsck failed"⟩ ∧
    progress_main ["demo-1-progress", "/dev/sda1"] 0 check_backend_check_fails = 0 ∧
    (∀ w : CheckBackend, progress_main ["demo-1-progress", "/dev/sda1"] 1000 w = EXIT_FAILURE) ∧
    (∀ w : CheckBackend, progress_main ["demo-1-progress"] 0 w = EXIT_FAILURE) ∧
    (∀ w : CheckBackend,
      progress_main ["demo-1-progress", "/dev/sda1", "/dev/sdb1"] 0 w = EXIT_FAILURE) ∧
    (∀ w : CheckBackend, progress_main ["demo-1-progress", "-v", "/dev/sda1"] 0 w = EXIT_FAILURE) :=
  ⟨fun _ => rfl, by decide, by decide, by decide, by decide, by decide, fun _ => rfl,
    fun _ => rfl, fun _ => rfl, fun _ => rfl⟩

end Demo1
